import Mathlib

/-!
Verification of the Disposition Engine of `LTC_AI_Gateway`
(`app/routes/analyze_item_photo.py` and
`app/services/partner_discovery/providers.py`).

The Python functions are shallowly embedded as executable Lean definitions:
Python floats become exact rationals (`ℚ`), Python dicts keyed by strings become
association lists, fallible code returns `Except`, and the process-wide response
cache plus the provider-invocation log are threaded as explicit state.
`round(x, 3)` is modelled as exact round-half-even at three decimal places.
String primitives are implemented over `List Char` so that every definition
evaluates by kernel reduction.
-/

attribute [local semireducible] Rat.add Rat.mul Rat.inv Rat.sub Rat.ofScientific

namespace LTC

/-! ## String and numeric helpers mirroring Python primitives -/

/-- Whitespace trim of a character list (both ends), mirroring Python `str.strip()`. -/
def trimList (l : List Char) : List Char :=
  ((l.dropWhile Char.isWhitespace).reverse.dropWhile Char.isWhitespace).reverse

/-- Python `(s or "").strip().lower()`: the `_norm` helper (analyze_item_photo.py line 752). -/
def norm (s : String) : String := ⟨(trimList s.data).map Char.toLower⟩

/-- Contiguous-sublist test over lists, used to model Python substring `in`. -/
def isInfixList (needle : List Char) : List Char → Bool
  | [] => needle.isEmpty
  | c :: rest => needle.isPrefixOf (c :: rest) || isInfixList needle rest

/-- Python `needle in hay` (contiguous substring containment). -/
def strContains (hay needle : String) : Bool := isInfixList needle.data hay.data

/-- Fuel-driven worker for `replaceAll`; fuel is the length of the subject string. -/
def replaceGo (pat rep : List Char) : Nat → List Char → List Char
  | 0, s => s
  | _, [] => []
  | fuel + 1, c :: rest =>
    if pat.isPrefixOf (c :: rest) then rep ++ replaceGo pat rep fuel ((c :: rest).drop pat.length)
    else c :: replaceGo pat rep fuel rest

/-- Python `s.replace(pat, rep)` (all non-overlapping occurrences, left to right).
The engine only calls it with non-empty literal patterns. -/
def replaceAll (s pat rep : String) : String :=
  if pat.data.isEmpty then s else ⟨replaceGo pat.data rep.data s.data.length s.data⟩

/-- Fuel-driven worker for `pySplitWs`. -/
def splitWsGo : Nat → List Char → List (List Char)
  | 0, _ => []
  | _, [] => []
  | fuel + 1, c :: rest =>
    if c.isWhitespace then splitWsGo fuel rest
    else
      let w := (c :: rest).takeWhile (fun d => !d.isWhitespace)
      w :: splitWsGo fuel ((c :: rest).drop w.length)

/-- Python `s.split()`: split on whitespace runs, dropping empty pieces. -/
def pySplitWs (s : String) : List String :=
  (splitWsGo s.data.length s.data).map (fun l => ⟨l⟩)

/-- Python `sep.join(parts)`. -/
def joinSep (sep : String) : List String → String
  | [] => ""
  | [x] => x
  | x :: y :: rest => x ++ sep ++ joinSep sep (y :: rest)

/-- Python `min` on two floats (returns the first argument on ties). -/
def pymin (a b : ℚ) : ℚ := if a ≤ b then a else b

/-- Python `max` on two floats (returns the first argument on ties). -/
def pymax (a b : ℚ) : ℚ := if b ≤ a then a else b

/-- Python `max(0.0, min(1.0, x))`, the clamp used throughout the engine. -/
def clamp01 (x : ℚ) : ℚ := pymax 0 (pymin 1 x)

/-- Round-half-even of a rational to an integer (Python `round` at banker's rounding). -/
def roundHalfEven (q : ℚ) : ℤ :=
  let f := q.floor
  let frac := q - (f : ℚ)
  if frac < 1/2 then f
  else if 1/2 < frac then f + 1
  else if f % 2 = 0 then f else f + 1

/-- Python `round(x, 3)` idealised over exact rationals. -/
def round3 (q : ℚ) : ℚ := ((roundHalfEven (q * 1000) : ℤ) : ℚ) / 1000

/-! ## Data model

Typed shapes of the dicts and Pydantic DTOs used by the engine
(`app/models_disposition.py`).  Evidence maps (`sources`), gate-definition maps
and the cache are association lists; `None` becomes `Option`. -/

/-- One evidence signal recorded by a gate match:
`{"type": "text_match", "label": kw, "source": src}`. -/
structure Signal where
  type : String
  label : String
  source : String
deriving DecidableEq

/-- A gate definition from the matrix's `trustGateDefinitions` map. -/
structure GateDef where
  type : String
  keywords : List String
  sources : List String
  sourceWeights : List (String × ℚ)
deriving DecidableEq

/-- A per-gate evaluation record `{id, mode, status, source, strength}`. -/
structure GateResult where
  id : String
  mode : String
  status : String
  source : Option String
  strength : ℚ
deriving DecidableEq

/-- Contact block of a candidate / result. -/
structure Contact where
  phone : Option String
  website : Option String
  email : Option String
  address : Option String
  city : Option String
  region : Option String
deriving DecidableEq

/-- A discovery candidate as produced by a provider (stub, curated or Places). -/
structure Candidate where
  partnerId : String
  name : String
  partnerType : String
  contact : Contact
  distanceMiles : Option ℚ
  rating : Option ℚ
  userRatingsTotal : Option Int
  sources : List (String × String)
deriving DecidableEq

/-- Per-partner-type rank weights (`rankWeights` dict; absent keys fall to defaults). -/
structure RankWeights where
  trustScore : Option ℚ
  relevanceScore : Option ℚ
  distanceScore : Option ℚ
  reviewScore : Option ℚ
deriving DecidableEq

/-- A partner-type spec inside a scenario.  A query entry is `none` when the JSON
entry is not a dict carrying a `q` key (the loop skips those). -/
structure PartnerTypeSpec where
  type : String
  queries : List (Option String)
  trustGates : List String
  rankWeights : RankWeights
deriving DecidableEq

/-- A `when`-clause constraint value: wildcard `"*"`, JSON `null`, a list, or a scalar. -/
inductive WVal (α : Type) where
  | star : WVal α
  | null : WVal α
  | list : List α → WVal α
  | scalar : α → WVal α
deriving DecidableEq

/-- The `when` predicate of a scenario; a `none` field means the key is absent. -/
structure WhenClause where
  categories : Option (WVal String)
  valueBand : Option (WVal String)
  bulky : Option (WVal Bool)
  fragile : Option (WVal Bool)
  goals : Option (WVal String)
  chosenPaths : Option (WVal String)
deriving DecidableEq

/-- A scenario of the policy matrix.  `id` is optional in the raw JSON.
`priority` is `int(x.get("priority", 0))`. -/
structure Scenario where
  id : Option String
  priority : Int
  when : WhenClause
  partnerTypes : List PartnerTypeSpec
deriving DecidableEq

/-- The policy matrix: scenarios, gate definitions and global tunables.
Tunables are `Option` because the Python reads them with `matrix.get(key, default)`. -/
structure Matrix where
  scenarios : List Scenario
  defaultScenarioId : Option String
  trustGateDefinitions : List (String × GateDef)
  defaultRadiusMiles : Option Int
  maxRadiusMiles : Option Int
  minResults : Option Int
  maxResultsPerType : Option Int
  maxResultsTotal : Option Int
  recommendedRefreshDays : Option Int
deriving DecidableEq

/-- `DispositionLocationDTO`. -/
structure DispositionLocationDTO where
  city : String
  region : String
  countryCode : String
  postalCode : Option String
  radiusMiles : Option Int
  latitude : Option ℚ
  longitude : Option ℚ
deriving DecidableEq

/-- `DispositionScenarioDTO` (request-side scenario attributes). -/
structure DispositionScenarioDTO where
  category : Option String
  valueBand : Option String
  bulky : Option Bool
  fragile : Option Bool
  setMembership : Option String
  goal : Option String
  constraints : List String
  brandHints : List String
  conditionHint : Option String
  quantityHint : Option String
deriving DecidableEq

/-- `DispositionHintsDTO`. -/
structure DispositionHintsDTO where
  keywords : List String
  notes : Option String
deriving DecidableEq

/-- `DispositionPartnersSearchRequest` (fields the engine reads). -/
structure DispositionPartnersSearchRequest where
  chosenPath : String
  scenario : DispositionScenarioDTO
  location : DispositionLocationDTO
  hints : Option DispositionHintsDTO
deriving DecidableEq

/-! ## Gate evaluation (`_negated`, `_eval_gate_keyword_any`) -/

/-- Python `_negated(text, keyword)` (line 862): the gate match is suppressed when
`"not <kw>"` or `"no <kw>"` occurs anywhere in the (normalised) text. -/
def negated (text keyword : String) : Bool :=
  let t := norm text
  let k := norm keyword
  strContains t ("not " ++ k) || strContains t ("no " ++ k)

/-- Inner keyword loop of `_eval_gate_keyword_any` for one evidence source.
The accumulator is `(best_strength, best_source, signals)`. -/
def evalGateKws (weights : List (String × ℚ)) (src : String) (txtl : String) :
    List String → ℚ × Option String × List Signal → ℚ × Option String × List Signal
  | [], acc => acc
  | kw :: rest, (best, bsrc, sigs) =>
    let kwl := norm kw
    if kwl == "" then evalGateKws weights src txtl rest (best, bsrc, sigs)
    else if strContains txtl kwl && !(negated txtl kwl) then
      let w := ((weights.lookup src).getD (1/2) : ℚ)
      let best' := if best < w then w else best
      let bsrc' := if best < w then some src else bsrc
      evalGateKws weights src txtl rest (best', bsrc', sigs ++ [⟨"text_match", kw, src⟩])
    else evalGateKws weights src txtl rest (best, bsrc, sigs)

/-- Outer source loop of `_eval_gate_keyword_any`. -/
def evalGateSrcs (gd : GateDef) (sources : List (String × String)) :
    List String → ℚ × Option String × List Signal → ℚ × Option String × List Signal
  | [], acc => acc
  | src :: rest, acc =>
    let txt := (sources.lookup src).getD ""
    let txtl := norm txt
    if txtl == "" then evalGateSrcs gd sources rest acc
    else evalGateSrcs gd sources rest (evalGateKws gd.sourceWeights src txtl gd.keywords acc)

/-- Python `_eval_gate_keyword_any(gate_def, sources)` (line 873): returns
`(passed, source_used, strength, signals)` with `passed = strength > 0`. -/
def eval_gate_keyword_any (gd : GateDef) (sources : List (String × String)) :
    Bool × Option String × ℚ × List Signal :=
  let r := evalGateSrcs gd sources gd.sources (0, none, [])
  (decide ((0:ℚ) < r.1), r.2.1, r.1, r.2.2)

/-! ## Trust evaluation (`_evaluate_trust`) -/

/-- Whether a gate reference carries the `"required:"` mode tag. -/
def isRequiredRef (gate_id : String) : Bool :=
  ("required:".data).isPrefixOf gate_id.data

/-- Mode/id split of one entry of `trustGates`: `"required:<gid>"` marks a
required gate (the id is everything after the tag, stripped), anything else is
a boost reference. -/
def parseGateRef (gate_id : String) : String × String :=
  if isRequiredRef gate_id then ("required", ⟨trimList (gate_id.data.drop 9)⟩)
  else ("boost", gate_id)

/-- Loop state of `_evaluate_trust`. -/
structure TrustAcc where
  gates : List GateResult
  signals : List Signal
  required_total : Nat
  required_pass : Nat
  boost_total : Nat
  required_strength_sum : ℚ
  required_strength_hits : Nat
  boost_strength_sum : ℚ
  boost_strength_hits : Nat
deriving DecidableEq

/-- Initial loop state of `_evaluate_trust`. -/
def initTrustAcc : TrustAcc := ⟨[], [], 0, 0, 0, 0, 0, 0, 0⟩

/-- One iteration of the `for gate_id in trust_gate_ids` loop of `_evaluate_trust`
(lines 940–991). -/
def trustStep (gateDefs : List (String × GateDef)) (sources : List (String × String))
    (acc : TrustAcc) (gate_id : String) : TrustAcc :=
  let mg := parseGateRef gate_id
  let mode := mg.1
  let gid := mg.2
  match gateDefs.lookup gid with
  | none =>
    { acc with
      gates := acc.gates ++ [⟨gid, mode, "unknown", none, 0⟩]
      required_total := if mode == "required" then acc.required_total + 1 else acc.required_total
      boost_total := if mode == "required" then acc.boost_total else acc.boost_total + 1 }
  | some gdef =>
    let e := if gdef.type == "keyword_any" then eval_gate_keyword_any gdef sources
             else (false, none, 0, [])
    let passed := e.1
    let src_used := e.2.1
    let strength := e.2.2.1
    let signals := e.2.2.2
    { acc with
      gates := acc.gates ++
        [⟨gid, mode, if passed then "pass" else "fail", src_used, round3 strength⟩]
      signals := acc.signals ++ signals
      required_total := if mode == "required" then acc.required_total + 1 else acc.required_total
      required_pass :=
        if mode == "required" && passed then acc.required_pass + 1 else acc.required_pass
      required_strength_sum :=
        if mode == "required" && passed then acc.required_strength_sum + strength
        else acc.required_strength_sum
      required_strength_hits :=
        if mode == "required" && passed then acc.required_strength_hits + 1
        else acc.required_strength_hits
      boost_total := if mode == "required" then acc.boost_total else acc.boost_total + 1
      boost_strength_sum :=
        if !(mode == "required") && passed then acc.boost_strength_sum + strength
        else acc.boost_strength_sum
      boost_strength_hits :=
        if !(mode == "required") && passed then acc.boost_strength_hits + 1
        else acc.boost_strength_hits }

/-- Python `_evaluate_trust(matrix, partner_payload_sources, trust_gate_ids)`
(line 907): returns `(gates, trustScore, signals)`. -/
def evaluate_trust (gateDefs : List (String × GateDef)) (sources : List (String × String))
    (trust_gate_ids : List String) : List GateResult × ℚ × List Signal :=
  let acc := trust_gate_ids.foldl (trustStep gateDefs sources) initTrustAcc
  let base : ℚ :=
    if 0 < acc.required_total then
      if acc.required_pass == acc.required_total then 72/100
      else (1/10) * ((acc.required_pass : ℚ) / (acc.required_total : ℚ))
    else 6/10
  let req_avg : ℚ :=
    if 0 < acc.required_strength_hits then
      acc.required_strength_sum / (acc.required_strength_hits : ℚ)
    else 0
  let boost_avg : ℚ :=
    if 0 < acc.boost_strength_hits then
      acc.boost_strength_sum / (acc.boost_strength_hits : ℚ)
    else 0
  let lift := (18/100) * req_avg + (18/100) * boost_avg
  let trust_score := pymax 0 (pymin 1 (base + lift))
  (acc.gates, round3 trust_score, acc.signals)

/-- Python `_apply_required_gates(gates)` (line 1206): `False` exactly when some
required-mode gate has status `"fail"`. -/
def apply_required_gates (gates : List GateResult) : Bool :=
  gates.all (fun g => !(g.mode == "required" && g.status == "fail"))

/-! ## Ranker (`_relevance_score`, `_distance_score`, `_review_score`,
`_rank_candidates`, `_summarize_reasons`, `_build_questions`) -/

/-- The token list of `_relevance_score`: whitespace tokens of the normalised
query of length at least 4, first 12 of them. -/
def relevanceTokens (query : String) : List String :=
  ((pySplitWs (norm query)).filter (fun t => 4 ≤ t.length)).take 12

/-- The hit counter of `_relevance_score` (counts tokens with multiplicity). -/
def relevanceHits (txt : String) (query : String) : Nat :=
  (relevanceTokens query).foldl (fun h t => if strContains txt t then h + 1 else h) 0

/-- Python `_relevance_score(partner, query)` (line 1074). -/
def relevance_score (partner : Candidate) (query : String) : ℚ :=
  let txt := norm ((partner.sources.lookup "website_snippet").getD "")
  let hits := relevanceHits txt query
  let base := pymin 1 ((hits : ℚ) / 6)
  round3 (55/100 + (45/100) * base)

/-- Python `_distance_score(distance_miles, radius_miles)` (line 1091). -/
def distance_score (distance_miles : ℚ) (radius_miles : Int) : ℚ :=
  if radius_miles ≤ 0 then 1/2
  else round3 (pymax 0 (1 - pymin (distance_miles / (radius_miles : ℚ)) 1))

/-- Python `_review_score(rating)` (line 1097). -/
def review_score (rating : Option ℚ) : ℚ :=
  match rating with
  | none => 1/2
  | some r => round3 (pymax 0 (pymin 1 (r / 5)))

/-- Python `_rank_candidates(...)` (line 1190): weighted composite, clamped and rounded. -/
def rank_candidates (rank_weights : RankWeights) (trust_score relevance dscore rscore : ℚ) : ℚ :=
  let w_t := rank_weights.trustScore.getD (45/100)
  let w_r := rank_weights.relevanceScore.getD (35/100)
  let w_d := rank_weights.distanceScore.getD (15/100)
  let w_v := rank_weights.reviewScore.getD (5/100)
  let score := w_t * trust_score + w_r * relevance + w_d * dscore + w_v * rscore
  round3 (pymax 0 (pymin 1 score))

/-- Python `_summarize_reasons(...)` (line 1103). -/
def summarize_reasons (partner_type : String) (req : DispositionPartnersSearchRequest)
    (trust_score rel : ℚ) (gates_eval : Option (List GateResult)) : List String :=
  let cat := match req.scenario.category with
    | some c => if c == "" then "item" else c
    | none => "item"
  let r1 := "Matches: " ++ replaceAll partner_type "_" " " ++ " for " ++ cat
  let confirmed_type := match gates_eval with
    | none => false
    | some gs => gs.any (fun g =>
        g.mode == "required" && g.status == "pass" && !g.source.isNone)
  let r2 := if confirmed_type then "Business type appears to match (based on public snippets)"
    else "Business type is a likely match (verify on their listing/site)"
  let rs3 := if (75/100 : ℚ) ≤ rel then ["Strong keyword match to your situation"] else []
  let rs4 := if req.scenario.bulky == some true then
      ["Verification needed: ask about pickup/handling for bulky items"] else []
  let r5 := if (85/100 : ℚ) ≤ trust_score then "High match confidence from available evidence"
    else if (7/10 : ℚ) ≤ trust_score then "Good match; limited public evidence available"
    else "Potential match; expect to verify details directly"
  ([r1, r2] ++ rs3 ++ rs4 ++ [r5]).take 4

/-- Python `_build_questions(partner_type, req)` (line 1147). -/
def build_questions (partner_type : String) : List String :=
  let common := [
    "Do you provide receipts or itemized records suitable for estate accounting?",
    "What is your typical timeline and next step to get started?"]
  if partner_type == "consignment" then
    ([ "Do you offer pickup for bulky items?",
       "What is your commission and payout schedule?",
       "Do you accept items in my category and condition?"] ++ common).take 6
  else if partner_type == "estate_sale" then
    ([ "Are you bonded and insured? Can you provide proof?",
       "Do you handle pricing, staging, and advertising?",
       "How do you account for items sold and fees deducted?"] ++ common).take 6
  else if partner_type == "auction" then
    ([ "What categories perform best at your auctions?",
       "What are seller fees and settlement timing?",
       "Do you offer pickup/transport for larger items?"] ++ common).take 6
  else if partner_type == "donation" then
    ([ "Do you provide a donation receipt suitable for taxes?",
       "What items do you accept or not accept?",
       "Do you offer pickup?"] ++ common).take 6
  else if partner_type == "junk_haul" then
    ([ "Can you provide a written estimate and disposal policy?",
       "Are you insured for in-home pickup?",
       "Can you schedule within my timeline?"] ++ common).take 6
  else common

/-! ## Scenario selection (`_scenario_matches`, `_pick_scenario`) -/

/-- Python `match_value(when_val, req_val)` with `normalize_text=False`.
Wildcard and `null` always match; a missing request value never matches a
non-wildcard constraint; lists are membership, scalars are equality. -/
def match_value {α : Type} [BEq α] (when_val : WVal α) (req_val : Option α) : Bool :=
  match when_val with
  | .star => true
  | .null => true
  | .list xs => match req_val with
    | none => false
    | some v => xs.contains v
  | .scalar s => match req_val with
    | none => false
    | some v => s == v

/-- Python `match_value(when_val, req_val, normalize_text=True)` (used for categories):
string comparisons go through `_norm`. -/
def match_value_norm (when_val : WVal String) (req_val : Option String) : Bool :=
  match when_val with
  | .star => true
  | .null => true
  | .list xs => match req_val with
    | none => false
    | some v => xs.any (fun x => norm x == norm v)
  | .scalar s => match req_val with
    | none => false
    | some v => norm s == norm v

/-- Python `_scenario_matches(when, req)` (line 756): every declared constraint
must be satisfied. -/
def scenario_matches (w : WhenClause) (req : DispositionPartnersSearchRequest) : Bool :=
  (match w.categories with
    | none => true
    | some wv => match_value_norm wv req.scenario.category) &&
  (match w.valueBand with
    | none => true
    | some wv => match_value wv req.scenario.valueBand) &&
  (match w.bulky with
    | none => true
    | some wv => match_value wv req.scenario.bulky) &&
  (match w.fragile with
    | none => true
    | some wv => match_value wv req.scenario.fragile) &&
  (match w.goals with
    | none => true
    | some wv => match_value wv req.scenario.goal) &&
  (match w.chosenPaths with
    | none => true
    | some wv => match_value wv (some req.chosenPath))

/-- Descending-priority order on scenarios; `sorted(key=priority, reverse=True)`
is the stable sort by this relation. -/
def scenarioGE (a b : Scenario) : Prop := b.priority ≤ a.priority

instance : DecidableRel scenarioGE :=
  fun a b => inferInstanceAs (Decidable (b.priority ≤ a.priority))

instance : IsTotal Scenario scenarioGE := ⟨fun a b => le_total b.priority a.priority⟩

instance : IsTrans Scenario scenarioGE := ⟨fun _ _ _ h1 h2 => le_trans h2 h1⟩

/-- The degenerate scenario `{"id": "default_any", "partnerTypes": []}` returned
when the matrix has no scenarios at all. -/
def degenerateScenario : Scenario :=
  ⟨some "default_any", 0, ⟨none, none, none, none, none, none⟩, []⟩

/-- Python `_pick_scenario(matrix, req)` (line 810): first match in descending
priority order, else the declared default scenario when present, else the first
scenario, else the degenerate scenario. -/
def pick_scenario (matrix : Matrix) (req : DispositionPartnersSearchRequest) : Scenario :=
  let scenarios_sorted := List.insertionSort scenarioGE matrix.scenarios
  match scenarios_sorted.find? (fun s => scenario_matches s.when req) with
  | some s => s
  | none =>
    match matrix.defaultScenarioId with
    | some default_id =>
      if default_id == "" then scenarios_sorted.headD degenerateScenario
      else
        match scenarios_sorted.find? (fun s => s.id == some default_id) with
        | some s => s
        | none => scenarios_sorted.headD degenerateScenario
    | none => scenarios_sorted.headD degenerateScenario

/-! ## Response cache (`_cache_get`, `_cache_set`, `_mk_cache_key`)

The cache maps a key to `(created_at_epoch_seconds, payload)`; the payload dict
`{"candidates": [...]}` is modelled as the candidate list itself. -/

/-- The process-wide cache `_DISPOSITION_CACHE`, as explicit state. -/
abbrev Cache := List (String × (ℚ × List Candidate))

/-- `_DISPOSITION_CACHE_TTL_SECONDS = 24 * 60 * 60`. -/
def cacheTTL : ℚ := 24 * 60 * 60

/-- Python `_cache_get(key)` (line 829) at time `now`: returns the payload when
present and fresh; a stale entry is popped and treated as absent. -/
def cache_get (cache : Cache) (now : ℚ) (key : String) : Option (List Candidate) × Cache :=
  match cache.lookup key with
  | none => (none, cache)
  | some cp =>
    if cacheTTL < now - cp.1 then (none, cache.filter (fun p => !(p.1 == key)))
    else (some cp.2, cache)

/-- Python `_cache_set(key, payload)` (line 842) at time `now`. -/
def cache_set (cache : Cache) (now : ℚ) (key : String) (payload : List Candidate) : Cache :=
  (key, (now, payload)) :: cache.filter (fun p => !(p.1 == key))

/-- Python `_mk_cache_key(req, partner_type, radius, query)` (line 847). -/
def mk_cache_key (req : DispositionPartnersSearchRequest) (partner_type : String)
    (radius : Int) (query : String) : String :=
  joinSep "||" [
    "v1",
    partner_type,
    norm query,
    norm req.location.city ++ "|" ++ norm req.location.region ++ "|" ++
      norm req.location.countryCode,
    toString radius,
    norm (req.scenario.category.getD ""),
    norm (req.scenario.goal.getD ""),
    norm req.chosenPath]

/-! ## Provider abstraction and the search pipeline
(`disposition_partners_search`, lines 1215–1639)

The provider is a function from a `PartnerDiscoveryQuery` to candidates or an
error; a raised exception in `provider.search` becomes `Except.error`.  The
pipeline threads a `SearchState`: the response cache and the log of provider
invocations (used to state the caching claims). -/

/-- `PartnerDiscoveryQuery` (providers.py line 14). -/
structure PartnerDiscoveryQuery where
  query : String
  city : String
  region : String
  radius_miles : Int
  partner_type : String
  center_lat : Option ℚ
  center_lng : Option ℚ
  language_code : String
  region_code : String
deriving DecidableEq

/-- A discovery provider: either a candidate list or a raised error. -/
abbrev Provider := PartnerDiscoveryQuery → Except String (List Candidate)

/-- The mutable context of one search call: the process-wide cache and the log of
provider invocations performed so far. -/
structure SearchState where
  cache : Cache
  calls : List PartnerDiscoveryQuery
deriving DecidableEq

/-- Trust block of one result (`{"trustScore", "claimLevel", "gates", "signals"}`). -/
structure TrustBlock where
  trustScore : ℚ
  claimLevel : String
  gates : List GateResult
  signals : List Signal
deriving DecidableEq

/-- Ranking block of one result (`{"score", "reasons"}`). -/
structure RankingBlock where
  score : ℚ
  reasons : List String
deriving DecidableEq

/-- One entry of the response's `results` list. -/
structure ResultEntry where
  partnerId : String
  name : String
  partnerType : String
  contact : Contact
  distanceMiles : Option ℚ
  rating : Option ℚ
  userRatingsTotal : Option Int
  trust : TrustBlock
  ranking : RankingBlock
  whyRecommended : String
  questionsToAsk : List String
deriving DecidableEq

/-- The response shape the engine returns (wall-clock `generatedAt` and the
constant `schemaVersion` are omitted from the embedding). -/
structure DispositionPartnersSearchResponse where
  scenarioId : String
  partnerTypes : List String
  results : List ResultEntry
  disclaimer : String
  recommendedRefreshDays : Int
deriving DecidableEq

/-- The response disclaimer string (lines 1634–1637). -/
def searchDisclaimer : String :=
  "Partner information is best-effort and may be outdated. For curated hub channels, verify current fees, intake rules, and authentication steps directly."

/-- Python `str.strip()` on a string value. -/
def pyStrip (s : String) : String := ⟨trimList s.data⟩

/-- Worker of `_normalize_brand_hints`: fold `hints.keywords` into the current
brand hints, skipping blanks and normalised duplicates. -/
def normalizeBrandHintsGo : List String → List String → List String → List String
  | _, current, [] => current
  | seen, current, kw :: rest =>
    let kw_s := pyStrip kw
    if kw_s == "" then normalizeBrandHintsGo seen current rest
    else
      let fp := norm kw_s
      if seen.contains fp then normalizeBrandHintsGo seen current rest
      else normalizeBrandHintsGo (seen ++ [fp]) (current ++ [kw_s]) rest

/-- Python `_normalize_brand_hints()` (line 1249): wires `hints.keywords` into
`scenario.brandHints`, deduplicated and capped at 6. -/
def normalize_brand_hints (payload : DispositionPartnersSearchRequest) :
    DispositionPartnersSearchRequest :=
  let current := payload.scenario.brandHints
  let seen := (current.filter (fun x => !(pyStrip x == ""))).map norm
  let current' := match payload.hints with
    | none => current
    | some h => normalizeBrandHintsGo seen current h.keywords
  { payload with scenario := { payload.scenario with brandHints := current'.take 6 } }

/-- Brand hints as prepared by `_curated_luxury_hub_mailin_candidates`:
stripped, non-blank, first 6. -/
def curatedBrandHints (req : DispositionPartnersSearchRequest) : List String :=
  ((req.scenario.brandHints.filterMap (fun x =>
    let s := pyStrip x
    if s == "" then none else some s))).take 6

/-- Python `_curated_luxury_hub_mailin_candidates(req)` (line 1272). -/
def curated_luxury_hub_mailin_candidates (req : DispositionPartnersSearchRequest) :
    List Candidate :=
  let brand_hints := curatedBrandHints req
  let hints_txt :=
    if brand_hints.isEmpty then ""
    else " (brand hints: " ++ joinSep ", " (brand_hints.take 3) ++ ")"
  [ { partnerId := "curated:luxury:therealreal"
      name := "The RealReal"
      partnerType := "luxury_hub_mailin"
      contact := ⟨none, some "https://www.therealreal.com/", none, none, none, none⟩
      distanceMiles := none
      rating := none
      userRatingsTotal := none
      sources := [
        ("website_snippet",
         "Luxury consignment channel with mail-in / concierge-style intake options; authentication-oriented workflow (verify current programs)."),
        ("place_details",
         "Hub/national channel. Often a better fit than local consignment for Remembered/Luxury brands in secondary markets." ++ hints_txt),
        ("reviews_snippet", "")] },
    { partnerId := "curated:luxury:vestiaire"
      name := "Vestiaire Collective"
      partnerType := "luxury_hub_mailin"
      contact := ⟨none, some "https://www.vestiairecollective.com/", none, none, none, none⟩
      distanceMiles := none
      rating := none
      userRatingsTotal := none
      sources := [
        ("website_snippet",
         "Designer fashion resale marketplace; authentication pathways are part of the model (verify process for your item type and region)."),
        ("place_details",
         "Hub/online channel. Shipping is often easier than driving, even in major cities." ++ hints_txt),
        ("reviews_snippet", "")] },
    { partnerId := "curated:luxury:grailed"
      name := "Grailed (Menswear)"
      partnerType := "luxury_hub_mailin"
      contact := ⟨none, some "https://www.grailed.com/", none, none, none, none⟩
      distanceMiles := none
      rating := none
      userRatingsTotal := none
      sources := [
        ("website_snippet",
         "Menswear-focused resale marketplace; best for specific menswear brands/styles (verify selling workflow and fees)."),
        ("place_details",
         "Online channel; useful when local luxury demand is weak or inconsistent." ++ hints_txt),
        ("reviews_snippet", "")] } ]

/-- The query string for one template: substitute the city/region/category tokens,
then append up to two brand hints (lines 1492–1499). -/
def buildQueryStr (req : DispositionPartnersSearchRequest) (q_template : String) : String :=
  let s := replaceAll
    (replaceAll (replaceAll q_template "\x7bcity\x7d" req.location.city)
      "\x7bregion\x7d" req.location.region)
    "\x7bcategory\x7d" (req.scenario.category.getD "")
  if req.scenario.brandHints.isEmpty then s
  else s ++ " " ++ joinSep " " (req.scenario.brandHints.take 2)

/-- The `PartnerDiscoveryQuery` the route constructs (lines 1511–1523). -/
def mkPDQuery (req : DispositionPartnersSearchRequest) (partner_type : String) (radius : Int)
    (query_str : String) : PartnerDiscoveryQuery :=
  ⟨query_str, req.location.city, req.location.region, radius, partner_type,
   req.location.latitude, req.location.longitude, "en", "US"⟩

/-- Cache-checked candidate fetch (lines 1501–1524): look up the key, and on a
miss invoke the provider and write the result back. -/
def fetchCandidates (provider : Provider) (now : ℚ) (req : DispositionPartnersSearchRequest)
    (partner_type : String) (radius : Int) (query_str : String) (st : SearchState) :
    Except String (List Candidate × SearchState) :=
  let key := mk_cache_key req partner_type radius query_str
  let gc := cache_get st.cache now key
  match gc.1 with
  | some cands => .ok (cands, ⟨gc.2, st.calls⟩)
  | none =>
    let q := mkPDQuery req partner_type radius query_str
    match provider q with
    | .error e => .error e
    | .ok cands => .ok (cands, ⟨cache_set gc.2 now key cands, st.calls ++ [q]⟩)

/-- Per-candidate processing of the normal discovery flow (lines 1526–1586):
evaluate trust, drop the candidate when a required gate failed, otherwise score
and build the result entry. -/
def processCandidateNormal (matrix : Matrix) (req : DispositionPartnersSearchRequest)
    (partner_type : String) (trust_gates : List String) (rank_weights : RankWeights)
    (query_str : String) (radius : Int) (c : Candidate) : Option ResultEntry :=
  let t := evaluate_trust matrix.trustGateDefinitions c.sources trust_gates
  let gates_eval := t.1
  let trust_score := t.2.1
  let signals := t.2.2
  if !apply_required_gates gates_eval then none
  else
    let rel := relevance_score c query_str
    let dist_miles := c.distanceMiles.getD (radius : ℚ)
    let dscore := distance_score dist_miles radius
    let rscore := review_score c.rating
    let score := rank_candidates rank_weights trust_score rel dscore rscore
    let reasons := summarize_reasons partner_type req trust_score rel (some gates_eval)
    some {
      partnerId := c.partnerId
      name := c.name
      partnerType := partner_type
      contact := c.contact
      distanceMiles := c.distanceMiles
      rating := c.rating
      userRatingsTotal := c.userRatingsTotal
      trust := ⟨trust_score, "claimed", gates_eval, signals.take 12⟩
      ranking := ⟨score, reasons⟩
      whyRecommended := joinSep " ; " (reasons.take 2)
      questionsToAsk := build_questions partner_type }

/-- Per-candidate processing of the curated luxury-hub branch (lines 1415–1470):
same gate filter and scoring, but a neutral distance score and claim level
`"curated"`. -/
def processCandidateLuxury (matrix : Matrix) (req : DispositionPartnersSearchRequest)
    (trust_gates : List String) (rank_weights : RankWeights) (query_str : String)
    (c : Candidate) : Option ResultEntry :=
  let t := evaluate_trust matrix.trustGateDefinitions c.sources trust_gates
  let gates_eval := t.1
  let trust_score := t.2.1
  let signals := t.2.2
  if !apply_required_gates gates_eval then none
  else
    let rel := relevance_score c query_str
    let dscore : ℚ := 1/2
    let rscore := review_score c.rating
    let score := rank_candidates rank_weights trust_score rel dscore rscore
    let reasons := summarize_reasons "luxury_hub_mailin" req trust_score rel (some gates_eval)
    some {
      partnerId := c.partnerId
      name := c.name
      partnerType := "luxury_hub_mailin"
      contact := c.contact
      distanceMiles := c.distanceMiles
      rating := c.rating
      userRatingsTotal := c.userRatingsTotal
      trust := ⟨trust_score, "curated", gates_eval, signals.take 12⟩
      ranking := ⟨score, reasons⟩
      whyRecommended := joinSep " ; " (reasons.take 2)
      questionsToAsk := build_questions "luxury_hub_mailin" }

/-- The `for c in candidates` loop of the normal flow, with the early `break`
once `min_results` entries have accumulated. -/
def processCandidates (matrix : Matrix) (req : DispositionPartnersSearchRequest)
    (partner_type : String) (trust_gates : List String) (rank_weights : RankWeights)
    (query_str : String) (radius : Int) (min_results : Int) :
    List ResultEntry → List Candidate → List ResultEntry
  | found, [] => found
  | found, c :: rest =>
    match processCandidateNormal matrix req partner_type trust_gates rank_weights
        query_str radius c with
    | none => processCandidates matrix req partner_type trust_gates rank_weights
        query_str radius min_results found rest
    | some entry =>
      let found' := found ++ [entry]
      if min_results ≤ (found'.length : Int) then found'
      else processCandidates matrix req partner_type trust_gates rank_weights
        query_str radius min_results found' rest

/-- The `for q in queries` loop: skip malformed or blank templates, fetch
(cache-checked), process candidates, stop early at `min_results`. -/
def processQueries (matrix : Matrix) (provider : Provider) (now : ℚ)
    (req : DispositionPartnersSearchRequest) (partner_type : String)
    (trust_gates : List String) (rank_weights : RankWeights) (radius : Int)
    (min_results : Int) :
    SearchState → List ResultEntry → List (Option String) →
    Except String (List ResultEntry × SearchState)
  | st, found, [] => .ok (found, st)
  | st, found, none :: rest =>
    processQueries matrix provider now req partner_type trust_gates rank_weights radius
      min_results st found rest
  | st, found, some q_template :: rest =>
    if q_template == "" then
      processQueries matrix provider now req partner_type trust_gates rank_weights radius
        min_results st found rest
    else
      let query_str := buildQueryStr req q_template
      match fetchCandidates provider now req partner_type radius query_str st with
      | .error e => .error e
      | .ok cs =>
        let found' := processCandidates matrix req partner_type trust_gates rank_weights
          query_str radius min_results found cs.1
        if min_results ≤ (found'.length : Int) then .ok (found', cs.2)
        else
          processQueries matrix provider now req partner_type trust_gates rank_weights radius
            min_results cs.2 found' rest

/-- The radius-expansion loop (`for radius in radii`). -/
def processRadii (matrix : Matrix) (provider : Provider) (now : ℚ)
    (req : DispositionPartnersSearchRequest) (partner_type : String)
    (trust_gates : List String) (rank_weights : RankWeights)
    (queries : List (Option String)) (min_results : Int) :
    SearchState → List ResultEntry → List Int →
    Except String (List ResultEntry × SearchState)
  | st, found, [] => .ok (found, st)
  | st, found, radius :: rest =>
    match processQueries matrix provider now req partner_type trust_gates rank_weights
        radius min_results st found queries with
    | .error e => .error e
    | .ok fs =>
      if min_results ≤ (fs.1.length : Int) then .ok fs
      else
        processRadii matrix provider now req partner_type trust_gates rank_weights queries
          min_results fs.2 fs.1 rest

/-- The radius checkpoints (lines 1477–1482): the base radius, then 50 when the
base is below 50, then 100 when not already present, all capped at the maximum. -/
def buildRadii (base_radius max_radius : Int) : List Int :=
  let radii0 := [base_radius] ++ (if base_radius < 50 then [(50 : Int)] else [])
  let radii1 := radii0 ++ (if radii0.contains 100 then [] else [(100 : Int)])
  radii1.filter (fun r => r ≤ max_radius)

/-- Python `_fingerprint(r)` (line 1597): normalised identity string. -/
def fingerprint (r : ResultEntry) : String :=
  norm r.name ++ "|" ++ norm (r.contact.phone.getD "") ++ "|" ++
    norm (r.contact.website.getD "") ++ "|" ++ norm (r.contact.address.getD "") ++ "|" ++
    norm (r.contact.city.getD "") ++ "|" ++ norm (r.contact.region.getD "")

/-- Descending order on composite ranking scores; Python
`sorted(key=score, reverse=True)` is the stable sort by this relation. -/
def byScoreDesc (a b : ResultEntry) : Prop := b.ranking.score ≤ a.ranking.score

instance : DecidableRel byScoreDesc :=
  fun a b => inferInstanceAs (Decidable (b.ranking.score ≤ a.ranking.score))

instance : IsTotal ResultEntry byScoreDesc := ⟨fun a b => le_total b.ranking.score a.ranking.score⟩

instance : IsTrans ResultEntry byScoreDesc := ⟨fun _ _ _ h1 h2 => le_trans h2 h1⟩

/-- The `seen_fp` deduplication loop (lines 1607–1618): keep the first entry for
each fingerprint. -/
def dedupByFingerprint : List String → List ResultEntry → List ResultEntry
  | _, [] => []
  | seen, r :: rest =>
    let fp := fingerprint r
    if seen.contains fp then dedupByFingerprint seen rest
    else r :: dedupByFingerprint (fp :: seen) rest

/-- Sort the per-type results descending by score, then deduplicate by
fingerprint (lines 1607–1618). -/
def dedupSorted (rs : List ResultEntry) : List ResultEntry :=
  dedupByFingerprint [] (List.insertionSort byScoreDesc rs)

/-- The query string of the curated luxury branch (lines 1409–1411). -/
def luxuryQueryStr (req : DispositionPartnersSearchRequest) : String :=
  let q := "luxury mail-in resale"
  if req.scenario.brandHints.isEmpty then q
  else q ++ " " ++ joinSep " " (req.scenario.brandHints.take 2)

/-- Processing of one partner type: the curated luxury branch (no provider, no
radius expansion, no dedup) or the normal discovery flow followed by
sort/dedup/cap. -/
def processPartnerType (matrix : Matrix) (provider : Provider) (now : ℚ)
    (req : DispositionPartnersSearchRequest) (min_results max_radius base_radius : Int)
    (st : SearchState) (pt : PartnerTypeSpec) :
    Except String (List ResultEntry × SearchState) :=
  if pt.type == "luxury_hub_mailin" then
    let query_str := luxuryQueryStr req
    let candidates := curated_luxury_hub_mailin_candidates req
    let found := candidates.filterMap
      (processCandidateLuxury matrix req pt.trustGates pt.rankWeights query_str)
    .ok (found.take (matrix.maxResultsPerType.getD 8).toNat, st)
  else
    match processRadii matrix provider now req pt.type pt.trustGates pt.rankWeights
        pt.queries min_results st [] (buildRadii base_radius max_radius) with
    | .error e => .error e
    | .ok fs => .ok ((dedupSorted fs.1).take (matrix.maxResultsPerType.getD 8).toNat, fs.2)

/-- The `for pt in partner_types` loop, accumulating `all_results`. -/
def processTypes (matrix : Matrix) (provider : Provider) (now : ℚ)
    (req : DispositionPartnersSearchRequest) (min_results max_radius base_radius : Int) :
    SearchState → List ResultEntry → List PartnerTypeSpec →
    Except String (List ResultEntry × SearchState)
  | st, all_results, [] => .ok (all_results, st)
  | st, all_results, pt :: rest =>
    if pt.type == "" then
      processTypes matrix provider now req min_results max_radius base_radius st
        all_results rest
    else
      match processPartnerType matrix provider now req min_results max_radius base_radius
          st pt with
      | .error e => .error e
      | .ok ds =>
        processTypes matrix provider now req min_results max_radius base_radius ds.2
          (all_results ++ ds.1) rest

/-- The effective base radius: `int(payload.location.radiusMiles or default)`
(line 1381); a missing or zero request radius falls back to the matrix default. -/
def searchBaseRadius (matrix : Matrix) (payload : DispositionPartnersSearchRequest) : Int :=
  let default_radius := matrix.defaultRadiusMiles.getD 25
  match payload.location.radiusMiles with
  | some r => if r == 0 then default_radius else r
  | none => default_radius

/-- Python `disposition_partners_search(payload)` (line 1215), parameterised by
the loaded matrix, the selected provider, the wall-clock time and the initial
cache state. -/
def disposition_partners_search (matrix : Matrix) (provider : Provider) (now : ℚ)
    (payload : DispositionPartnersSearchRequest) (st0 : SearchState) :
    Except String (DispositionPartnersSearchResponse × SearchState) :=
  let scenario := pick_scenario matrix payload
  let base_radius := searchBaseRadius matrix payload
  let max_radius := matrix.maxRadiusMiles.getD 100
  let min_results := matrix.minResults.getD 6
  let partner_types := scenario.partnerTypes
  let payload1 := normalize_brand_hints payload
  match processTypes matrix provider now payload1 min_results max_radius base_radius st0 []
      partner_types with
  | .error e => .error e
  | .ok rs =>
    let all_sorted := List.insertionSort byScoreDesc rs.1
    .ok ({ scenarioId := scenario.id.getD "unknown"
           partnerTypes := (partner_types.filter (fun pt => !(pt.type == ""))).map
             (fun pt => pt.type)
           results := all_sorted.take (matrix.maxResultsTotal.getD 15).toNat
           disclaimer := searchDisclaimer
           recommendedRefreshDays := matrix.recommendedRefreshDays.getD 30 }, rs.2)

/-! ## Provider retry loop (`GooglePlacesNewProvider._search_text`, providers.py
lines 121–225)

One HTTP attempt either yields a response with a status code and (for successes)
a parsed body, or raises a transport exception (timeout / network error).  The
attempt oracle `att` gives the outcome of each numbered attempt; the model
returns the final outcome together with the list of back-off sleeps performed. -/

/-- Outcome of one HTTP attempt: a response, or a raised transport exception. -/
inductive HttpAttempt (α : Type) where
  | response (status : Nat) (data : α)
  | exc (msg : String)

/-- The error raised by the retry loop: an `HTTPStatusError` from
`raise_for_status()`, or the re-raised transport exception. -/
inductive HttpError where
  | statusError (status : Nat)
  | excError (msg : String)
deriving DecidableEq

/-- The explicitly retried status classes (line 181):
408, 429, any 5xx, and 400. -/
def transientStatus (s : Nat) : Bool :=
  s == 408 || s == 429 || (500 ≤ s && s ≤ 599) || s == 400

/-- Whether an attempt outcome is a transient failure in the sense of the spec:
a retriable status, or a raised timeout / network exception. -/
def transientAttempt {α : Type} : HttpAttempt α → Bool
  | .response s _ => transientStatus s && 400 ≤ s
  | .exc _ => true

/-- The `for attempt in range(1, max_attempts + 1)` loop of `_search_text`:
`n` is the attempt number, the fuel counts the remaining iterations, and the
fuel-exhausted case is the unreachable `for`-`else` guardrail of the Python. -/
def search_text_go {α : Type} (att : Nat → HttpAttempt α) (max_attempts : Nat) :
    Nat → Nat → Except HttpError α × List ℚ
  | _, 0 => (.error (.excError "Google Places searchText failed without exception detail."), [])
  | n, fuel + 1 =>
    match att n with
    | .response s d =>
      if transientStatus s && decide (n < max_attempts) then
        let r := search_text_go att max_attempts (n + 1) fuel
        (r.1, (4/10 : ℚ) * (n : ℚ) :: r.2)
      else if 400 ≤ s then
        if n < max_attempts then
          let r := search_text_go att max_attempts (n + 1) fuel
          (r.1, (4/10 : ℚ) * (n : ℚ) :: r.2)
        else (.error (.statusError s), [])
      else (.ok d, [])
    | .exc m =>
      if n < max_attempts then
        let r := search_text_go att max_attempts (n + 1) fuel
        (r.1, (4/10 : ℚ) * (n : ℚ) :: r.2)
      else (.error (.excError m), [])

/-- The retry loop with `max_attempts = 3`, starting at attempt 1. -/
def search_text {α : Type} (att : Nat → HttpAttempt α) : Except HttpError α × List ℚ :=
  search_text_go att 3 1 3

/-! ## Specification-side definitions

These definitions follow the wording of the specification (not the code); they
are compared with the code-derived definitions above in refinement-style
theorems and counterexamples. -/

/-- Spec wording for the keyword gate: some occurrence of the (normalised)
keyword in the (normalised) text is not immediately preceded by the negation
token `"not "` or `"no "`. -/
def specOccursNonNegated (text keyword : String) : Bool :=
  let t := (norm text).data
  let k := (norm keyword).data
  !k.isEmpty && (List.range (t.length + 1)).any (fun i =>
    k.isPrefixOf (t.drop i) &&
    !(("not ".data).isSuffixOf (t.take i) || ("no ".data).isSuffixOf (t.take i)))

/-- The claim's gate-pass condition (occurrence-level negation): some configured
keyword occurs in some configured evidence field with a non-negated occurrence. -/
def specKeywordAnyPassClaim (gd : GateDef) (sources : List (String × String)) : Bool :=
  gd.sources.any (fun src =>
    gd.keywords.any (fun kw => specOccursNonNegated ((sources.lookup src).getD "") kw))

/-- Amended gate-pass condition matching the code: some configured keyword with a
non-blank normalisation occurs as a substring of some configured evidence
field's non-blank normalised text, the whole text carries no `"not <kw>"` /
`"no <kw>"` occurrence (text-level negation), and the field's configured weight
(default 1/2) is positive. -/
def specKeywordAnyPassAmended (gd : GateDef) (sources : List (String × String)) : Bool :=
  gd.sources.any (fun src =>
    let txtl := norm ((sources.lookup src).getD "")
    !(txtl == "") &&
    gd.keywords.any (fun kw =>
      let kwl := norm kw
      !(kwl == "") && strContains txtl kwl && !(negated txtl kwl) &&
      decide ((0:ℚ) < (gd.sourceWeights.lookup src).getD (1/2))))

/-- Whether the gate referenced by one `trustGates` entry passes on the given
evidence (an undefined or non-`keyword_any` gate never passes). -/
def refPassed (defs : List (String × GateDef)) (srcs : List (String × String))
    (r : String) : Bool :=
  match defs.lookup (parseGateRef r).2 with
  | none => false
  | some gd => if gd.type == "keyword_any" then (eval_gate_keyword_any gd srcs).1 else false

/-- The matched strength of the gate referenced by one `trustGates` entry. -/
def refStrength (defs : List (String × GateDef)) (srcs : List (String × String))
    (r : String) : ℚ :=
  match defs.lookup (parseGateRef r).2 with
  | none => 0
  | some gd => if gd.type == "keyword_any" then (eval_gate_keyword_any gd srcs).2.2.1 else 0

/-- The signals contributed by one `trustGates` entry. -/
def refSignals (defs : List (String × GateDef)) (srcs : List (String × String))
    (r : String) : List Signal :=
  match defs.lookup (parseGateRef r).2 with
  | none => []
  | some gd => if gd.type == "keyword_any" then (eval_gate_keyword_any gd srcs).2.2.2 else []

/-- The `GateResult` record produced for one `trustGates` entry. -/
def gateResultOf (defs : List (String × GateDef)) (srcs : List (String × String))
    (r : String) : GateResult :=
  let mode := (parseGateRef r).1
  let gid := (parseGateRef r).2
  match defs.lookup gid with
  | none => ⟨gid, mode, "unknown", none, 0⟩
  | some gd =>
    let e := if gd.type == "keyword_any" then eval_gate_keyword_any gd srcs
             else (false, none, 0, [])
    ⟨gid, mode, if e.1 then "pass" else "fail", e.2.1, round3 e.2.2.1⟩

/-- Number of required-mode gate references. -/
def specRequiredTotal (refs : List String) : Nat := (refs.filter isRequiredRef).length

/-- Number of required-mode gate references that pass. -/
def specRequiredPass (defs : List (String × GateDef)) (srcs : List (String × String))
    (refs : List String) : Nat :=
  (refs.filter (fun r => isRequiredRef r && refPassed defs srcs r)).length

/-- Strengths of the passing required-mode gates, in order. -/
def specReqStrengths (defs : List (String × GateDef)) (srcs : List (String × String))
    (refs : List String) : List ℚ :=
  (refs.filter (fun r => isRequiredRef r && refPassed defs srcs r)).map (refStrength defs srcs)

/-- Strengths of the passing boost-mode gates, in order. -/
def specBoostStrengths (defs : List (String × GateDef)) (srcs : List (String × String))
    (refs : List String) : List ℚ :=
  (refs.filter (fun r => !isRequiredRef r && refPassed defs srcs r)).map (refStrength defs srcs)

/-- Average of a list of strengths, zero when the list is empty. -/
def avgOrZero (l : List ℚ) : ℚ := if l.isEmpty then 0 else l.sum / (l.length : ℚ)

/-- The claim's base term: 0.60 with no required gates declared, 0.72 when all
required gates pass, else 0.10 times the pass fraction. -/
def specBase (defs : List (String × GateDef)) (srcs : List (String × String))
    (refs : List String) : ℚ :=
  let total := specRequiredTotal refs
  let pass := specRequiredPass defs srcs refs
  if total = 0 then 6/10
  else if pass = total then 72/100
  else (1/10) * ((pass : ℚ) / (total : ℚ))

/-- The claim's lift term: 0.18 times each of the average matched strengths,
each term zero when no gate of that mode matched. -/
def specLift (defs : List (String × GateDef)) (srcs : List (String × String))
    (refs : List String) : ℚ :=
  (18/100) * avgOrZero (specReqStrengths defs srcs refs) +
  (18/100) * avgOrZero (specBoostStrengths defs srcs refs)

/-- The claim's trust score: `clamp(base + lift, 0, 1)`, with no rounding. -/
def specTrustScoreClaim (defs : List (String × GateDef)) (srcs : List (String × String))
    (refs : List String) : ℚ :=
  clamp01 (specBase defs srcs refs + specLift defs srcs refs)

/-- The claim's relevance score: 0.55 plus 0.45 times the fraction of the
distinct query tokens that occur in the primary evidence text. -/
def specRelevanceClaim (partner : Candidate) (query : String) : ℚ :=
  let txt := norm ((partner.sources.lookup "website_snippet").getD "")
  let toks := (relevanceTokens query).dedup
  let f : ℚ :=
    if toks.isEmpty then 0
    else ((toks.filter (fun t => strContains txt t)).length : ℚ) / (toks.length : ℚ)
  55/100 + (45/100) * f

/-! ## Concrete instances used by counterexamples and witnesses -/

/-- A contact with every field absent. -/
def emptyContact : Contact := ⟨none, none, none, none, none, none⟩

/-- A `when` clause with no constraint declared. -/
def emptyWhen : WhenClause := ⟨none, none, none, none, none, none⟩

/-- Rank weights with every key absent (all defaults apply). -/
def rw0 : RankWeights := ⟨none, none, none, none⟩

/-- Keyword gate looking for `"jewelry"` in the website snippet, no weights. -/
def gate7 : GateDef := ⟨"keyword_any", ["jewelry"], ["website_snippet"], []⟩

/-- Evidence whose text holds a negated and a separate non-negated occurrence. -/
def sources7 : List (String × String) :=
  [("website_snippet", "not jewelry but jewelry accepted")]

/-- Gate definitions for the trust-score instances: one defined keyword gate. -/
def defs2 : List (String × GateDef) :=
  [("g1", ⟨"keyword_any", ["estate"], ["website_snippet"], []⟩)]

/-- Evidence for the trust-score instances. -/
def srcs2 : List (String × String) := [("website_snippet", "estate sales")]

/-- Three required references: one defined and passing, two undefined. -/
def refs2 : List String := ["required:g1", "required:gu1", "required:gu2"]

/-- Candidate whose snippet holds all three query tokens. -/
def cand8 : Candidate :=
  ⟨"id8", "Vintage Jewelry House", "consignment", emptyContact, none, none, none,
   [("website_snippet", "vintage jewelry appraisal experts")]⟩

/-- Location of the pipeline instances. -/
def loc6 : DispositionLocationDTO := ⟨"Boise", "Idaho", "US", none, some 25, none, none⟩

/-- Request-side scenario attributes of the pipeline instances. -/
def sc6 : DispositionScenarioDTO :=
  ⟨none, none, none, none, none, none, [], [], none, none⟩

/-- Request of the pipeline instances. -/
def req6 : DispositionPartnersSearchRequest := ⟨"A", sc6, loc6, none⟩

/-- Consignment partner type with one query template and no gates. -/
def pt6a : PartnerTypeSpec := ⟨"consignment", [some "a"], [], rw0⟩

/-- Donation partner type with one query template and no gates. -/
def pt6b : PartnerTypeSpec := ⟨"donation", [some "b"], [], rw0⟩

/-- Scenario with the two partner types above and no constraints. -/
def scn6 : Scenario := ⟨some "s6", 1, emptyWhen, [pt6a, pt6b]⟩

/-- Matrix with the single scenario `scn6` and default tunables. -/
def matrix6 : Matrix := ⟨[scn6], none, [], none, none, none, none, none, none⟩

/-- A donation candidate returned by the second partner type. -/
def cand6 : Candidate :=
  ⟨"id-b1", "Donation Central", "donation", emptyContact, none, none, none, []⟩

/-- Provider that raises (after its retry budget) for consignment queries and
succeeds for every other partner type. -/
def provider6 : Provider :=
  fun q => if q.partner_type == "consignment" then .error "boom" else .ok [cand6]

/-- Provider that always succeeds with the donation candidate. -/
def provider4 : Provider := fun _ => .ok [cand6]

/-- Empty initial search state (empty cache, no calls yet). -/
def st00 : SearchState := ⟨[], []⟩

/-- Attempt oracle: rate-limited on the first two attempts, success on the third. -/
def att5 : Nat → HttpAttempt Unit :=
  fun n => if n < 3 then .response 429 () else .response 200 ()

/-- High-priority scenario matching HIGH-value requests. -/
def scn3hi : Scenario :=
  ⟨some "jewelry_high", 10,
   ⟨none, some (.list ["HIGH"]), none, none, none, none⟩, []⟩

/-- Low-priority catch-all scenario. -/
def scn3lo : Scenario := ⟨some "fallback", 1, emptyWhen, []⟩

/-- Matrix with the two scenarios above and a declared default id. -/
def matrix3 : Matrix :=
  ⟨[scn3lo, scn3hi], some "fallback", [], none, none, none, none, none, none⟩

/-- HIGH-value request matching `scn3hi`. -/
def req3 : DispositionPartnersSearchRequest :=
  ⟨"A", { sc6 with valueBand := some "HIGH" }, loc6, none⟩

/-- Result entry with score 1, first duplicate of the C9 instance. -/
def e9a : ResultEntry :=
  ⟨"dup-a", "Dup Shop", "consignment",
   ⟨some "+1-208-555-0100", some "https://dup.example", none, some "100 Main St",
    some "Boise", some "Idaho"⟩,
   none, none, none, ⟨1, "claimed", [], []⟩, ⟨1, []⟩, "", []⟩

/-- Result entry with score 0, second duplicate of the C9 instance (same
normalised identity as `e9a`, different partner id). -/
def e9b : ResultEntry :=
  ⟨"dup-b", "Dup Shop", "consignment",
   ⟨some "+1-208-555-0100", some "https://dup.example", none, some "100 Main St",
    some "Boise", some "Idaho"⟩,
   none, none, none, ⟨1, "claimed", [], []⟩, ⟨0, []⟩, "", []⟩

/-- Scenario with no partner types (for a trivially successful search run). -/
def scnW : Scenario := ⟨some "sW", 5, emptyWhen, []⟩

/-- Matrix whose only scenario declares no partner types. -/
def matrixW : Matrix := ⟨[scnW], none, [], none, none, none, none, none, none⟩

/-- Candidate whose snippet passes the `g1` gate. -/
def cand1pass : Candidate :=
  ⟨"p1", "Estate Pros", "consignment", emptyContact, none, none, none,
   [("website_snippet", "estate sales and consignment")]⟩

/-- Candidate whose snippet fails the `g1` gate. -/
def cand1fail : Candidate :=
  ⟨"f1", "Flower Shop", "consignment", emptyContact, none, none, none,
   [("website_snippet", "fresh flowers daily")]⟩

/-- Consignment partner type guarded by the required `g1` gate. -/
def pt1 : PartnerTypeSpec := ⟨"consignment", [some "a"], ["required:g1"], rw0⟩

/-- Scenario with the gated consignment partner type. -/
def scn1 : Scenario := ⟨some "s1", 1, emptyWhen, [pt1]⟩

/-- Matrix with `scn1` and the `g1` gate definition. -/
def matrix1 : Matrix := ⟨[scn1], none, defs2, none, none, none, none, none, none⟩

/-- Provider returning one gate-passing and one gate-failing candidate. -/
def provider1 : Provider := fun _ => .ok [cand1pass, cand1fail]

/-- A gated search run used to witness the required-gate filter. -/
def runC1 : Except String (DispositionPartnersSearchResponse × SearchState) :=
  disposition_partners_search matrix1 provider1 0 req6 st00

/-- The response of `runC1`. -/
def respC1 : DispositionPartnersSearchResponse :=
  (runC1.toOption.map Prod.fst).getD ⟨"", [], [], "", 0⟩

/-- The final search state of `runC1`. -/
def stC1 : SearchState := (runC1.toOption.map Prod.snd).getD st00

/-! ## Helper lemmas -/

theorem clamp01_nonneg (x : ℚ) : 0 ≤ clamp01 x := by
  unfold clamp01 pymax pymin
  split_ifs <;> linarith

theorem clamp01_le_one (x : ℚ) : clamp01 x ≤ 1 := by
  unfold clamp01 pymax pymin
  split_ifs <;> linarith

theorem ratFloor_eq_intFloor (q : ℚ) : q.floor = ⌊q⌋ := by
  rw [Rat.floor_def', Rat.floor_def]

theorem roundHalfEven_nonneg (q : ℚ) (h : 0 ≤ q) : 0 ≤ roundHalfEven q := by
  unfold roundHalfEven
  rw [ratFloor_eq_intFloor]
  have h0 : (0 : ℤ) ≤ ⌊q⌋ := Int.floor_nonneg.mpr h
  dsimp only
  split_ifs <;> omega

theorem roundHalfEven_le_of_le (q : ℚ) (B : ℤ) (h : q ≤ (B : ℚ)) :
    roundHalfEven q ≤ B := by
  unfold roundHalfEven
  rw [ratFloor_eq_intFloor]
  have hfl : (⌊q⌋ : ℚ) ≤ q := Int.floor_le q
  have hfB : ⌊q⌋ ≤ B := by
    have := Int.floor_le_floor h
    rwa [Int.floor_intCast] at this
  dsimp only
  split_ifs with h1 h2 h3
  · exact hfB
  · -- half exceeded: the floor is at most B - 1
    have hlt : (⌊q⌋ : ℚ) < (B : ℚ) - 1/2 := by
      have : (⌊q⌋ : ℚ) = q - (q - (⌊q⌋ : ℚ)) := by ring
      linarith
    have : ⌊q⌋ < B := by
      have : (⌊q⌋ : ℚ) < (B : ℚ) := by linarith
      exact_mod_cast this
    omega
  · exact hfB
  · -- exact half, odd floor: again the floor is strictly below B
    have h2' : (1 : ℚ)/2 ≤ q - (⌊q⌋ : ℚ) := le_of_not_lt h1
    have hlt : (⌊q⌋ : ℚ) ≤ (B : ℚ) - 1/2 := by linarith
    have : ⌊q⌋ < B := by
      have : (⌊q⌋ : ℚ) < (B : ℚ) := by linarith
      exact_mod_cast this
    omega

theorem round3_nonneg (q : ℚ) (h : 0 ≤ q) : 0 ≤ round3 q := by
  unfold round3
  have : (0 : ℤ) ≤ roundHalfEven (q * 1000) := roundHalfEven_nonneg _ (by linarith)
  have : (0 : ℚ) ≤ (roundHalfEven (q * 1000) : ℚ) := by exact_mod_cast this
  positivity

theorem round3_le_one (q : ℚ) (h : q ≤ 1) : round3 q ≤ 1 := by
  unfold round3
  have h1 : roundHalfEven (q * 1000) ≤ (1000 : ℤ) := by
    apply roundHalfEven_le_of_le
    push_cast
    linarith
  have h2 : ((roundHalfEven (q * 1000) : ℤ) : ℚ) ≤ 1000 := by exact_mod_cast h1
  linarith

theorem round3_eq_self (q : ℚ) (z : ℤ) (h : q * 1000 = (z : ℚ)) : round3 q = q := by
  unfold round3 roundHalfEven
  rw [ratFloor_eq_intFloor, h, Int.floor_intCast]
  dsimp only
  rw [if_pos (by norm_num : (z : ℚ) - (z : ℚ) < 1/2)]
  have h1000 : (1000 : ℚ) ≠ 0 := by norm_num
  field_simp
  linarith [h]

theorem apply_required_gates_eq_true_iff (gates : List GateResult) :
    apply_required_gates gates = true ↔
      ∀ g ∈ gates, g.mode = "required" → g.status ≠ "fail" := by
  unfold apply_required_gates
  rw [List.all_eq_true]
  constructor
  · intro h g hg hm hs
    have := h g hg
    rw [hm, hs] at this
    simp at this
  · intro h g hg
    by_cases hm : g.mode = "required"
    · have hs := h g hg hm
      have : (g.status == "fail") = false := by
        cases hstat : g.status == "fail"
        · rfl
        · exact absurd (by simpa using hstat) hs
      simp [this]
    · have : (g.mode == "required") = false := by
        cases hmode : g.mode == "required"
        · rfl
        · exact absurd (by simpa using hmode) hm
      simp [this]

theorem parseGateRef_fst (r : String) :
    ((parseGateRef r).1 == "required") = isRequiredRef r := by
  unfold parseGateRef
  cases h : isRequiredRef r <;> simp [h]

/-- Field characterisation of one step of the `_evaluate_trust` loop. -/
theorem trustStep_fields (defs : List (String × GateDef)) (srcs : List (String × String))
    (acc : TrustAcc) (r : String) :
    (trustStep defs srcs acc r).gates = acc.gates ++ [gateResultOf defs srcs r] ∧
    (trustStep defs srcs acc r).required_total =
      acc.required_total + (if isRequiredRef r then 1 else 0) ∧
    (trustStep defs srcs acc r).required_pass =
      acc.required_pass + (if isRequiredRef r && refPassed defs srcs r then 1 else 0) ∧
    (trustStep defs srcs acc r).required_strength_sum =
      acc.required_strength_sum +
        (if isRequiredRef r && refPassed defs srcs r then refStrength defs srcs r else 0) ∧
    (trustStep defs srcs acc r).required_strength_hits =
      acc.required_strength_hits +
        (if isRequiredRef r && refPassed defs srcs r then 1 else 0) ∧
    (trustStep defs srcs acc r).boost_strength_sum =
      acc.boost_strength_sum +
        (if !isRequiredRef r && refPassed defs srcs r then refStrength defs srcs r else 0) ∧
    (trustStep defs srcs acc r).boost_strength_hits =
      acc.boost_strength_hits +
        (if !isRequiredRef r && refPassed defs srcs r then 1 else 0) := by
  unfold trustStep gateResultOf refPassed refStrength
  have hfst := parseGateRef_fst r
  cases hl : defs.lookup (parseGateRef r).2 with
  | none =>
    simp only [hl]
    cases hreq : isRequiredRef r <;> simp_all [hfst]
  | some gdef =>
    simp only [hl]
    by_cases ht : gdef.type = "keyword_any" <;>
      cases hreq : isRequiredRef r <;>
        by_cases hp : (eval_gate_keyword_any gdef srcs).1 = true <;>
          simp_all [hfst]

theorem specRequiredTotal_cons (r : String) (rest : List String) :
    specRequiredTotal (r :: rest) =
      (if isRequiredRef r then 1 else 0) + specRequiredTotal rest := by
  unfold specRequiredTotal
  rw [List.filter_cons]
  cases h : isRequiredRef r <;> simp [h, Nat.add_comm]

theorem specRequiredPass_cons (defs : List (String × GateDef)) (srcs : List (String × String))
    (r : String) (rest : List String) :
    specRequiredPass defs srcs (r :: rest) =
      (if isRequiredRef r && refPassed defs srcs r then 1 else 0) +
        specRequiredPass defs srcs rest := by
  unfold specRequiredPass
  rw [List.filter_cons]
  cases h : isRequiredRef r && refPassed defs srcs r <;> simp [h, Nat.add_comm]

theorem specReqStrengths_cons (defs : List (String × GateDef)) (srcs : List (String × String))
    (r : String) (rest : List String) :
    specReqStrengths defs srcs (r :: rest) =
      (if isRequiredRef r && refPassed defs srcs r then [refStrength defs srcs r] else []) ++
        specReqStrengths defs srcs rest := by
  unfold specReqStrengths
  rw [List.filter_cons]
  cases h : isRequiredRef r && refPassed defs srcs r <;> simp [h]

theorem specBoostStrengths_cons (defs : List (String × GateDef)) (srcs : List (String × String))
    (r : String) (rest : List String) :
    specBoostStrengths defs srcs (r :: rest) =
      (if !isRequiredRef r && refPassed defs srcs r then [refStrength defs srcs r] else []) ++
        specBoostStrengths defs srcs rest := by
  unfold specBoostStrengths
  rw [List.filter_cons]
  cases h : !isRequiredRef r && refPassed defs srcs r <;> simp [h]

/-- Field characterisation of the whole `_evaluate_trust` loop: the accumulated
counters and sums equal the specification-side counts over the reference list. -/
theorem trustFold_fields (defs : List (String × GateDef)) (srcs : List (String × String))
    (refs : List String) : ∀ acc : TrustAcc,
    (refs.foldl (trustStep defs srcs) acc).gates =
      acc.gates ++ refs.map (gateResultOf defs srcs) ∧
    (refs.foldl (trustStep defs srcs) acc).required_total =
      acc.required_total + specRequiredTotal refs ∧
    (refs.foldl (trustStep defs srcs) acc).required_pass =
      acc.required_pass + specRequiredPass defs srcs refs ∧
    (refs.foldl (trustStep defs srcs) acc).required_strength_sum =
      acc.required_strength_sum + (specReqStrengths defs srcs refs).sum ∧
    (refs.foldl (trustStep defs srcs) acc).required_strength_hits =
      acc.required_strength_hits + (specReqStrengths defs srcs refs).length ∧
    (refs.foldl (trustStep defs srcs) acc).boost_strength_sum =
      acc.boost_strength_sum + (specBoostStrengths defs srcs refs).sum ∧
    (refs.foldl (trustStep defs srcs) acc).boost_strength_hits =
      acc.boost_strength_hits + (specBoostStrengths defs srcs refs).length := by
  induction refs with
  | nil =>
    intro acc
    simp [specRequiredTotal, specRequiredPass, specReqStrengths, specBoostStrengths]
  | cons r rest ih =>
    intro acc
    obtain ⟨e1, e2, e3, e4, e5, e6, e7⟩ := trustStep_fields defs srcs acc r
    obtain ⟨f1, f2, f3, f4, f5, f6, f7⟩ := ih (trustStep defs srcs acc r)
    rw [List.foldl_cons] at *
    refine ⟨?_, ?_, ?_, ?_, ?_, ?_, ?_⟩
    · rw [f1, e1]
      simp [List.append_assoc]
    · rw [f2, e2, specRequiredTotal_cons]
      omega
    · rw [f3, e3, specRequiredPass_cons]
      omega
    · rw [f4, e4, specReqStrengths_cons, List.sum_append]
      cases h : isRequiredRef r && refPassed defs srcs r <;> simp [h] <;> ring
    · rw [f5, e5, specReqStrengths_cons, List.length_append]
      cases h : isRequiredRef r && refPassed defs srcs r <;> simp [h] <;> omega
    · rw [f6, e6, specBoostStrengths_cons, List.sum_append]
      cases h : !isRequiredRef r && refPassed defs srcs r <;> simp [h] <;> ring
    · rw [f7, e7, specBoostStrengths_cons, List.length_append]
      cases h : !isRequiredRef r && refPassed defs srcs r <;> simp [h] <;> omega

theorem avgOrZero_eq_length (l : List ℚ) :
    avgOrZero l = if 0 < l.length then l.sum / (l.length : ℚ) else 0 := by
  cases l <;> simp [avgOrZero]

/-- Characterisation of `_evaluate_trust`: the gate records are the per-reference
records in order, and the trust score is the rounded clamp of base plus lift. -/
theorem evaluate_trust_spec (defs : List (String × GateDef)) (srcs : List (String × String))
    (refs : List String) :
    (evaluate_trust defs srcs refs).1 = refs.map (gateResultOf defs srcs) ∧
    (evaluate_trust defs srcs refs).2.1 =
      round3 (clamp01 (specBase defs srcs refs + specLift defs srcs refs)) := by
  obtain ⟨e1, e2, e3, e4, e5, e6, e7⟩ := trustFold_fields defs srcs refs initTrustAcc
  unfold evaluate_trust
  dsimp only
  rw [e1, e2, e3, e4, e5, e6, e7]
  simp only [initTrustAcc, List.nil_append, Nat.zero_add, zero_add]
  constructor
  · trivial
  · show round3 (clamp01 _) = round3 (clamp01 _)
    refine congrArg round3 (congrArg clamp01 (congrArg₂ (· + ·) ?_ ?_))
    · unfold specBase
      rcases Nat.eq_zero_or_pos (specRequiredTotal refs) with h0 | hpos
      · simp [h0]
      · have hne : specRequiredTotal refs ≠ 0 := Nat.pos_iff_ne_zero.mp hpos
        by_cases heq : specRequiredPass defs srcs refs = specRequiredTotal refs
        · simp [hpos, hne, heq]
        · simp [hpos, hne, heq]
    · refine congrArg₂ (· + ·) (congrArg (fun x => (18:ℚ)/100 * x) ?_)
        (congrArg (fun x => (18:ℚ)/100 * x) ?_)
      · exact (avgOrZero_eq_length _).symm
      · exact (avgOrZero_eq_length _).symm

theorem pymax_pos (a b : ℚ) : 0 < pymax a b ↔ 0 < a ∨ 0 < b := by
  unfold pymax
  split_ifs with h
  · constructor
    · exact fun hh => Or.inl hh
    · rintro (hh | hh) <;> linarith
  · constructor
    · exact fun hh => Or.inr hh
    · rintro (hh | hh) <;> linarith

theorem pymax_update (best w : ℚ) :
    (if best < w then w else best) = pymax best w := by
  unfold pymax
  split_ifs <;> first | rfl | linarith

theorem pymax_absorb (best w : ℚ) : pymax (pymax best w) w = pymax best w := by
  unfold pymax
  split_ifs <;> first | rfl | linarith

/-- The running best strength after the keyword loop of one evidence source:
unchanged when no keyword matches, otherwise pushed up to the source weight. -/
theorem evalGateKws_best (weights : List (String × ℚ)) (src txtl : String)
    (kws : List String) : ∀ (best : ℚ) (bsrc : Option String) (sigs : List Signal),
    (evalGateKws weights src txtl kws (best, bsrc, sigs)).1 =
      if kws.any (fun kw =>
          !(norm kw == "") && strContains txtl (norm kw) && !negated txtl (norm kw)) then
        pymax best ((weights.lookup src).getD (1/2))
      else best := by
  induction kws with
  | nil => intro best bsrc sigs; simp [evalGateKws]
  | cons kw rest ih =>
    intro best bsrc sigs
    by_cases h1 : norm kw = ""
    · rw [show evalGateKws weights src txtl (kw :: rest) (best, bsrc, sigs) =
          evalGateKws weights src txtl rest (best, bsrc, sigs) from by
        simp [evalGateKws, h1]]
      rw [ih best bsrc sigs]
      simp [h1]
    · by_cases h2 : (strContains txtl (norm kw) && !negated txtl (norm kw)) = true
      · have hcn : strContains txtl (norm kw) = true ∧ negated txtl (norm kw) = false := by
          simpa using h2
        obtain ⟨hc, hn⟩ := hcn
        rw [show evalGateKws weights src txtl (kw :: rest) (best, bsrc, sigs) =
            evalGateKws weights src txtl rest
              ((if best < (weights.lookup src).getD (1/2) then (weights.lookup src).getD (1/2)
                else best),
               (if best < (weights.lookup src).getD (1/2) then some src else bsrc),
               sigs ++ [⟨"text_match", kw, src⟩]) from by
          simp [evalGateKws, h1, hc, hn]]
        rw [ih, pymax_update]
        by_cases h3 : (rest.any fun kw => !(norm kw == "") && strContains txtl (norm kw) &&
            !negated txtl (norm kw)) = true
        · simp [h3, h1, hc, hn, pymax_absorb]
        · simp [h3, h1, hc, hn]
      · have h2' : (strContains txtl (norm kw) && !negated txtl (norm kw)) = false := by
          simpa using h2
        rw [show evalGateKws weights src txtl (kw :: rest) (best, bsrc, sigs) =
            evalGateKws weights src txtl rest (best, bsrc, sigs) from by
          simp [evalGateKws, h1, h2']]
        rw [ih best bsrc sigs]
        have hpred : (!(norm kw == "") && (strContains txtl (norm kw) &&
            !negated txtl (norm kw))) = false := by
          cases hcon : strContains txtl (norm kw) <;>
            cases hneg : negated txtl (norm kw) <;> simp_all
        cases hcon : strContains txtl (norm kw) <;>
          cases hneg : negated txtl (norm kw) <;> simp_all

/-- Positivity of the best strength after the source loop: some source with
non-blank text has a matching keyword and a positive configured weight. -/
theorem evalGateSrcs_pos (gd : GateDef) (sources : List (String × String))
    (srcs : List String) : ∀ (best : ℚ) (bsrc : Option String) (sigs : List Signal),
    (0 < (evalGateSrcs gd sources srcs (best, bsrc, sigs)).1) ↔
      (0 < best ∨ srcs.any (fun src =>
        !((norm ((sources.lookup src).getD "")) == "") &&
        gd.keywords.any (fun kw =>
          !(norm kw == "") && strContains (norm ((sources.lookup src).getD "")) (norm kw) &&
          !negated (norm ((sources.lookup src).getD "")) (norm kw)) &&
        decide ((0:ℚ) < (gd.sourceWeights.lookup src).getD (1/2))) = true) := by
  induction srcs with
  | nil => intro best bsrc sigs; simp [evalGateSrcs]
  | cons src rest ih =>
    intro best bsrc sigs
    by_cases ht : norm ((sources.lookup src).getD "") = ""
    · rw [show evalGateSrcs gd sources (src :: rest) (best, bsrc, sigs) =
          evalGateSrcs gd sources rest (best, bsrc, sigs) from by
        simp [evalGateSrcs, ht]]
      rw [ih best bsrc sigs]
      simp [ht]
    · rw [show evalGateSrcs gd sources (src :: rest) (best, bsrc, sigs) =
          evalGateSrcs gd sources rest
            (evalGateKws gd.sourceWeights src (norm ((sources.lookup src).getD ""))
              gd.keywords (best, bsrc, sigs)) from by
        simp [evalGateSrcs, ht]]
      rw [show evalGateKws gd.sourceWeights src (norm ((sources.lookup src).getD ""))
            gd.keywords (best, bsrc, sigs) =
          ((evalGateKws gd.sourceWeights src (norm ((sources.lookup src).getD ""))
            gd.keywords (best, bsrc, sigs)).1,
           (evalGateKws gd.sourceWeights src (norm ((sources.lookup src).getD ""))
            gd.keywords (best, bsrc, sigs)).2.1,
           (evalGateKws gd.sourceWeights src (norm ((sources.lookup src).getD ""))
            gd.keywords (best, bsrc, sigs)).2.2) from rfl]
      rw [ih]
      rw [evalGateKws_best]
      by_cases hkw : gd.keywords.any (fun kw =>
          !(norm kw == "") && strContains (norm ((sources.lookup src).getD "")) (norm kw) &&
          !negated (norm ((sources.lookup src).getD "")) (norm kw)) = true
      · rw [if_pos hkw, pymax_pos]
        by_cases hw : (0:ℚ) < (gd.sourceWeights.lookup src).getD (1/2)
        · simp [ht, hkw, hw, or_assoc]
        · simp [ht, hkw, hw, or_assoc]
      · rw [if_neg hkw]
        have hkw' : gd.keywords.any (fun kw =>
            !(norm kw == "") && strContains (norm ((sources.lookup src).getD "")) (norm kw) &&
            !negated (norm ((sources.lookup src).getD "")) (norm kw)) = false := by
          cases hx : gd.keywords.any (fun kw =>
              !(norm kw == "") && strContains (norm ((sources.lookup src).getD "")) (norm kw) &&
              !negated (norm ((sources.lookup src).getD "")) (norm kw))
          · rfl
          · exact absurd hx hkw
        simp [ht, hkw']

/-- Claim C7 counterexample: on a text holding both a negated and a separate
non-negated occurrence of the keyword, the claim-side occurrence-level predicate
passes while the engine's gate does not (its negation guard is text-level). -/
theorem C7_counterexample :
    specKeywordAnyPassClaim gate7 sources7 = true ∧
    (eval_gate_keyword_any gate7 sources7).1 = false := by decide

/-- Claim C7 (amended): the keyword-any gate passes iff some configured keyword
with a non-blank normalisation occurs (case-insensitively) in some configured
evidence field whose normalised text is non-blank, the whole text does not
contain `"not <kw>"` or `"no <kw>"` as a plain contiguous substring (text-level
negation, no word boundary or whitespace normalisation), and the field's
configured source weight (default 0.5) is positive. -/
theorem C7_keyword_gate_amended (gd : GateDef) (sources : List (String × String)) :
    (eval_gate_keyword_any gd sources).1 = specKeywordAnyPassAmended gd sources := by
  have hiff : (0 < (evalGateSrcs gd sources gd.sources (0, none, [])).1) ↔
      specKeywordAnyPassAmended gd sources = true := by
    rw [evalGateSrcs_pos]
    unfold specKeywordAnyPassAmended
    simp only [lt_irrefl, false_or]
    simp only [List.any_eq_true, Bool.and_eq_true, Bool.not_eq_true', beq_iff_eq,
      decide_eq_true_eq]
    constructor
    · rintro ⟨x, hx, ⟨hA, x1, hx1, hP⟩, hW⟩
      exact ⟨x, hx, hA, x1, hx1, hP, hW⟩
    · rintro ⟨x, hx, hA, x1, hx1, hP, hW⟩
      exact ⟨x, hx, ⟨hA, x1, hx1, hP⟩, hW⟩
  show decide (0 < (evalGateSrcs gd sources gd.sources (0, none, [])).1) = _
  cases hrhs : specKeywordAnyPassAmended gd sources
  · exact decide_eq_false (fun hlt => by rw [hiff.mp hlt] at hrhs; exact Bool.noConfusion hrhs)
  · exact decide_eq_true (hiff.mpr hrhs)

/-- Claim C2 counterexample: the trust evaluator rounds its score to three
decimal places, so on one passing required gate out of three the returned score
0.123 differs from the claim's exact `clamp(base + lift, 0, 1) = 37/300`. -/
theorem C2_counterexample :
    (evaluate_trust defs2 srcs2 refs2).2.1 ≠ specTrustScoreClaim defs2 srcs2 refs2 := by
  decide

/-- Claim C2 (amended): the trust score equals `clamp(base + lift, 0, 1)` rounded
half-even to three decimal places, with base and lift exactly as the claim
states them, the lift averages taken over the exact unrounded matched
strengths; consequently the trust score is always within `[0, 1]`. -/
theorem C2_trust_score_amended (defs : List (String × GateDef))
    (srcs : List (String × String)) (refs : List String) :
    (evaluate_trust defs srcs refs).2.1 =
      round3 (clamp01 (specBase defs srcs refs + specLift defs srcs refs)) ∧
    0 ≤ (evaluate_trust defs srcs refs).2.1 ∧
    (evaluate_trust defs srcs refs).2.1 ≤ 1 := by
  obtain ⟨_, h2⟩ := evaluate_trust_spec defs srcs refs
  refine ⟨h2, ?_, ?_⟩
  · rw [h2]
    exact round3_nonneg _ (clamp01_nonneg _)
  · rw [h2]
    exact round3_le_one _ (clamp01_le_one _)

theorem foldl_count (p : String → Bool) (l : List String) : ∀ n : Nat,
    l.foldl (fun h t => if p t then h + 1 else h) n = n + l.countP p := by
  induction l with
  | nil => intro n; simp
  | cons a l ih =>
    intro n
    rw [List.foldl_cons, List.countP_cons]
    by_cases h : p a = true
    · rw [if_pos h, ih, h]
      simp
      omega
    · have h' : p a = false := by
        cases hx : p a
        · rfl
        · exact absurd hx h
      rw [if_neg (by simp [h']), ih, h']
      simp

theorem relevanceHits_countP (txt query : String) :
    relevanceHits txt query = (relevanceTokens query).countP (fun t => strContains txt t) := by
  unfold relevanceHits
  rw [foldl_count]
  simp

/-- Claim C8 counterexample: on a three-token query fully covered by the
snippet, the claim's distinct-token fraction gives relevance 1.0, while the
engine computes `0.55 + 0.45·min(1, 3/6) = 0.775`. -/
theorem C8_counterexample :
    relevance_score cand8 "vintage jewelry appraisal" ≠
      specRelevanceClaim cand8 "vintage jewelry appraisal" := by decide

/-- Claim C8 (amended): the relevance score equals
`0.55 + 0.45·min(1, hits/6)`, where `hits` counts, with multiplicity, how many
of the first 12 whitespace tokens of length at least 4 of the normalised query
occur as substrings of the normalised website snippet (not the fraction of
distinct tokens); the rounding to three decimals is exact here, and the score
always lies in `[0.55, 1]`. -/
theorem C8_relevance_amended (partner : Candidate) (query : String) :
    relevance_score partner query =
      55/100 + (45/100) * pymin 1
        (((relevanceTokens query).countP (fun t =>
            strContains (norm ((partner.sources.lookup "website_snippet").getD "")) t) : ℚ) / 6) ∧
    55/100 ≤ relevance_score partner query ∧ relevance_score partner query ≤ 1 := by
  unfold relevance_score
  dsimp only
  rw [relevanceHits_countP]
  have hmem : 0 ≤ pymin 1 (((relevanceTokens query).countP (fun t =>
      strContains (norm ((partner.sources.lookup "website_snippet").getD "")) t) : ℚ) / 6) ∧
      pymin 1 (((relevanceTokens query).countP (fun t =>
      strContains (norm ((partner.sources.lookup "website_snippet").getD "")) t) : ℚ) / 6) ≤ 1 := by
    unfold pymin
    split_ifs with h
    · constructor <;> norm_num
    · constructor
      · positivity
      · linarith
  have hexact : round3 (55/100 + (45/100) * pymin 1
      (((relevanceTokens query).countP (fun t =>
        strContains (norm ((partner.sources.lookup "website_snippet").getD "")) t) : ℚ) / 6)) =
      55/100 + (45/100) * pymin 1
      (((relevanceTokens query).countP (fun t =>
        strContains (norm ((partner.sources.lookup "website_snippet").getD "")) t) : ℚ) / 6) := by
    set n := (relevanceTokens query).countP (fun t =>
      strContains (norm ((partner.sources.lookup "website_snippet").getD "")) t) with hn
    unfold pymin
    split_ifs with h
    · apply round3_eq_self _ 1000
      norm_num
    · apply round3_eq_self _ (550 + 75 * (n : ℤ))
      push_cast
      ring
  refine ⟨hexact, ?_, ?_⟩
  · rw [hexact]
    nlinarith [hmem.1, hmem.2]
  · rw [hexact]
    nlinarith [hmem.1, hmem.2]

theorem countP_lt_of_mem {α : Type} (p q : α → Bool) (l : List α)
    (himp : ∀ a, p a = true → q a = true) (x : α) (hx : x ∈ l)
    (hqx : q x = true) (hpx : p x = false) : l.countP p < l.countP q := by
  induction l with
  | nil => cases hx
  | cons a l ih =>
    rw [List.countP_cons, List.countP_cons]
    have hle : l.countP p ≤ l.countP q := List.countP_mono_left (fun a _ => himp a)
    rcases List.mem_cons.mp hx with rfl | hmem
    · rw [hpx, hqx]
      rw [if_neg (by simp), if_pos rfl]
      omega
    · have hlt := ih hmem
      have hpq : (if p a = true then 1 else 0) ≤ (if q a = true then 1 else 0) := by
        by_cases h : p a = true
        · rw [if_pos h, if_pos (himp a h)]
        · rw [if_neg h]
          by_cases h2 : q a = true
          · rw [if_pos h2]
            omega
          · rw [if_neg h2]
      omega

/-- Claim C10: a required-mode reference to an undefined gate id yields a gate
record with status `"unknown"`, no source and strength 0; it counts toward the
required total but never as a pass, so the base drops to `0.10·(pass ratio)`;
and it never triggers the required-gate exclusion, which fires on status
`"fail"` alone. -/
theorem C10_unknown_gate (defs : List (String × GateDef)) (srcs : List (String × String))
    (refs : List String) (r gid : String)
    (hr : r ∈ refs) (hreq : parseGateRef r = ("required", gid))
    (hmiss : defs.lookup gid = none) :
    (⟨gid, "required", "unknown", none, 0⟩ : GateResult) ∈ (evaluate_trust defs srcs refs).1 ∧
    0 < specRequiredTotal refs ∧
    specRequiredPass defs srcs refs < specRequiredTotal refs ∧
    (evaluate_trust defs srcs refs).2.1 =
      round3 (clamp01 ((1/10) * ((specRequiredPass defs srcs refs : ℚ) /
        (specRequiredTotal refs : ℚ)) + specLift defs srcs refs)) ∧
    (apply_required_gates (evaluate_trust defs srcs refs).1 = true ↔
      ∀ g ∈ (evaluate_trust defs srcs refs).1, g.mode = "required" → g.status ≠ "fail") := by
  have hflag : isRequiredRef r = true := by
    by_contra h
    have hf : isRequiredRef r = false := by
      cases hx : isRequiredRef r
      · rfl
      · exact absurd hx h
    unfold parseGateRef at hreq
    rw [hf] at hreq
    simp at hreq
  have hsnd : (parseGateRef r).2 = gid := by rw [hreq]
  have hnotpass : refPassed defs srcs r = false := by
    unfold refPassed
    rw [hsnd, hmiss]
  obtain ⟨h1, h2⟩ := evaluate_trust_spec defs srcs refs
  have hgr : gateResultOf defs srcs r = ⟨gid, "required", "unknown", none, 0⟩ := by
    unfold gateResultOf
    dsimp only
    rw [hsnd, hmiss, show (parseGateRef r).1 = "required" from by rw [hreq]]
  have htot : 0 < specRequiredTotal refs := by
    unfold specRequiredTotal
    have : r ∈ refs.filter isRequiredRef := List.mem_filter.mpr ⟨hr, hflag⟩
    exact List.length_pos.mpr (List.ne_nil_of_mem this)
  have hlt : specRequiredPass defs srcs refs < specRequiredTotal refs := by
    unfold specRequiredPass specRequiredTotal
    rw [← List.countP_eq_length_filter, ← List.countP_eq_length_filter]
    apply countP_lt_of_mem _ _ _ _ r hr hflag
    · rw [hflag, hnotpass]
      rfl
    · intro a ha
      cases hA : isRequiredRef a
      · rw [hA] at ha
        simp at ha
      · rfl
  refine ⟨?_, htot, hlt, ?_, apply_required_gates_eq_true_iff _⟩
  · rw [h1]
    exact List.mem_map.mpr ⟨r, hr, hgr⟩
  · rw [h2]
    unfold specBase
    rw [if_neg (by omega), if_neg (by omega)]

theorem find?_priority_max (p : Scenario → Bool) (l : List Scenario)
    (hs : l.Sorted scenarioGE) (s : Scenario) (hfind : l.find? p = some s) :
    ∀ t ∈ l, p t = true → t.priority ≤ s.priority := by
  induction l with
  | nil => simp at hfind
  | cons a l ih =>
    rw [List.sorted_cons] at hs
    intro t ht hpt
    by_cases hpa : p a = true
    · rw [List.find?_cons_of_pos _ hpa] at hfind
      have hsa : a = s := by injection hfind
      subst hsa
      rcases List.mem_cons.mp ht with rfl | hmem
      · exact le_refl _
      · exact hs.1 t hmem
    · rw [List.find?_cons_of_neg _ hpa] at hfind
      rcases List.mem_cons.mp ht with rfl | hmem
      · exact absurd hpt hpa
      · exact ih hs.2 hfind t hmem hpt

/-- Claim C3: scenario selection is total and returns the first (highest
priority) matching scenario; with no match it falls back to the declared
non-blank default scenario id when such a scenario exists, else to the first
scenario in priority order, else to the degenerate scenario with an empty
partner-type list. -/
theorem C3_pick_scenario_total (matrix : Matrix) (req : DispositionPartnersSearchRequest) :
    (pick_scenario matrix req ∈ matrix.scenarios ∨
      pick_scenario matrix req = degenerateScenario) ∧
    (matrix.scenarios = [] → pick_scenario matrix req = degenerateScenario ∧
      (pick_scenario matrix req).partnerTypes = []) ∧
    ((∃ t ∈ matrix.scenarios, scenario_matches t.when req = true) →
      scenario_matches (pick_scenario matrix req).when req = true ∧
      ∀ t ∈ matrix.scenarios, scenario_matches t.when req = true →
        t.priority ≤ (pick_scenario matrix req).priority) ∧
    ((∀ t ∈ matrix.scenarios, scenario_matches t.when req = false) →
      ∀ d, matrix.defaultScenarioId = some d → d ≠ "" →
      (∃ t ∈ matrix.scenarios, t.id = some d) →
      (pick_scenario matrix req).id = some d) ∧
    ((∀ t ∈ matrix.scenarios, scenario_matches t.when req = false) →
      (∀ t ∈ matrix.scenarios, ∀ d, matrix.defaultScenarioId = some d → d ≠ "" →
        t.id ≠ some d) →
      matrix.scenarios ≠ [] →
      pick_scenario matrix req ∈ matrix.scenarios ∧
      ∀ t ∈ matrix.scenarios, t.priority ≤ (pick_scenario matrix req).priority) := by
  have hperm := List.perm_insertionSort scenarioGE matrix.scenarios
  have hsorted := List.sorted_insertionSort scenarioGE matrix.scenarios
  have hhead :
      (List.insertionSort scenarioGE matrix.scenarios).headD degenerateScenario ∈
          matrix.scenarios ∨
        (List.insertionSort scenarioGE matrix.scenarios).headD degenerateScenario =
          degenerateScenario := by
    cases hl : List.insertionSort scenarioGE matrix.scenarios with
    | nil => right; rfl
    | cons a tl =>
      left
      have : a ∈ List.insertionSort scenarioGE matrix.scenarios := by rw [hl]; simp
      exact hperm.mem_iff.mp this
  have hheadnil : matrix.scenarios = [] →
      (List.insertionSort scenarioGE matrix.scenarios).headD degenerateScenario =
        degenerateScenario := by
    intro h0
    rw [h0]
    rfl
  have hheadmax : matrix.scenarios ≠ [] →
      (List.insertionSort scenarioGE matrix.scenarios).headD degenerateScenario ∈
        matrix.scenarios ∧
      ∀ t ∈ matrix.scenarios, t.priority ≤
        ((List.insertionSort scenarioGE matrix.scenarios).headD degenerateScenario).priority := by
    intro hne
    cases hl : List.insertionSort scenarioGE matrix.scenarios with
    | nil =>
      have h' := hperm
      rw [hl] at h'
      exact absurd h'.symm.eq_nil hne
    | cons a tl =>
      rw [hl] at hsorted
      rw [List.sorted_cons] at hsorted
      constructor
      · have : a ∈ List.insertionSort scenarioGE matrix.scenarios := by rw [hl]; simp
        exact hperm.mem_iff.mp this
      · intro t ht
        have ht' : t ∈ List.insertionSort scenarioGE matrix.scenarios := hperm.mem_iff.mpr ht
        rw [hl] at ht'
        rcases List.mem_cons.mp ht' with rfl | hmem
        · exact le_refl _
        · exact hsorted.1 t hmem
  unfold pick_scenario
  cases hfind : (List.insertionSort scenarioGE matrix.scenarios).find?
      (fun s => scenario_matches s.when req) with
  | some s =>
    simp only [hfind]
    have hmem : s ∈ matrix.scenarios := hperm.mem_iff.mp (List.mem_of_find?_eq_some hfind)
    have hps : scenario_matches s.when req = true := by
      have := List.find?_some hfind
      simpa using this
    refine ⟨Or.inl hmem, ?_, ?_, ?_, ?_⟩
    · intro h0
      rw [h0] at hmem
      cases hmem
    · intro _
      refine ⟨hps, fun t ht hpt => ?_⟩
      exact find?_priority_max _ _ hsorted s hfind t (hperm.mem_iff.mpr ht) hpt
    · intro hno d _ _ _
      exact absurd hps (by simp [hno s hmem])
    · intro hno _ _
      exact absurd hps (by simp [hno s hmem])
  | none =>
    simp only [hfind]
    have hnomatch : ∀ t ∈ matrix.scenarios, scenario_matches t.when req = false := by
      intro t ht
      have := List.find?_eq_none.mp hfind t (hperm.mem_iff.mpr ht)
      cases hx : scenario_matches t.when req
      · rfl
      · exact absurd (by simpa using hx) this
    cases hdef : matrix.defaultScenarioId with
    | none =>
      simp only
      refine ⟨hhead, fun h0 => ⟨hheadnil h0, by rw [hheadnil h0]; rfl⟩, ?_, ?_, ?_⟩
      · rintro ⟨t, ht, hmt⟩
        exact absurd hmt (by simp [hnomatch t ht])
      · intro _ d hd
        cases hd
      · intro _ _ hne
        exact hheadmax hne
    | some d =>
      simp only
      by_cases hde : (d == "") = true
      · rw [if_pos hde]
        have hdeq : d = "" := by simpa using hde
        refine ⟨hhead, fun h0 => ⟨hheadnil h0, by rw [hheadnil h0]; rfl⟩, ?_, ?_, ?_⟩
        · rintro ⟨t, ht, hmt⟩
          exact absurd hmt (by simp [hnomatch t ht])
        · intro _ d' hd' hne' _
          injection hd' with hdd
          exact absurd (hdd ▸ hdeq) hne'
        · intro _ _ hne
          exact hheadmax hne
      · rw [if_neg hde]
        cases hfd : (List.insertionSort scenarioGE matrix.scenarios).find?
            (fun s => s.id == some d) with
        | some s =>
          simp only [hfd]
          have hmem : s ∈ matrix.scenarios := hperm.mem_iff.mp (List.mem_of_find?_eq_some hfd)
          have hid : s.id = some d := by
            have := List.find?_some hfd
            simpa using this
          refine ⟨Or.inl hmem, ?_, ?_, ?_, ?_⟩
          · intro h0
            rw [h0] at hmem
            cases hmem
          · rintro ⟨t, ht, hmt⟩
            exact absurd hmt (by simp [hnomatch t ht])
          · intro _ d' hd' _ _
            injection hd' with hdd
            rw [← hdd]
            exact hid
          · intro _ hnodef _
            have hdne : d ≠ "" := by
              intro hc
              rw [hc] at hde
              simp at hde
            exact absurd hid (hnodef s hmem d rfl hdne)
        | none =>
          simp only [hfd]
          refine ⟨hhead, fun h0 => ⟨hheadnil h0, by rw [hheadnil h0]; rfl⟩, ?_, ?_, ?_⟩
          · rintro ⟨t, ht, hmt⟩
            exact absurd hmt (by simp [hnomatch t ht])
          · rintro _ d' hd' _ ⟨t, ht, hid⟩
            injection hd' with hdd
            subst hdd
            have := List.find?_eq_none.mp hfd t (hperm.mem_iff.mpr ht)
            exact absurd (by simp [hid]) this
          · intro _ _ hne
            exact hheadmax hne

/-- Claim C4: the cache is consulted before any provider call.  A first search
on a missing key invokes the provider once and writes the entry; a second
search producing the identical key within 24 hours returns the cached
candidates with no provider invocation and no cache change; after 24 hours the
entry is treated as absent at read time, so the next read performs exactly one
new provider invocation and a fresh cache write. -/
theorem C4_cache_ttl (provider : Provider) (req req2 : DispositionPartnersSearchRequest)
    (pt pt2 : String) (radius radius2 : Int) (q q2 : String) (st0 : SearchState)
    (t0 t1 t2 : ℚ) (cands cands2 : List Candidate)
    (hmiss : st0.cache.lookup (mk_cache_key req pt radius q) = none)
    (hp : provider (mkPDQuery req pt radius q) = .ok cands)
    (hkey : mk_cache_key req2 pt2 radius2 q2 = mk_cache_key req pt radius q)
    (hfresh : t1 - t0 ≤ cacheTTL)
    (hstale : cacheTTL < t2 - t0)
    (hp2 : provider (mkPDQuery req2 pt2 radius2 q2) = .ok cands2) :
    fetchCandidates provider t0 req pt radius q st0 =
      .ok (cands, ⟨cache_set st0.cache t0 (mk_cache_key req pt radius q) cands,
                   st0.calls ++ [mkPDQuery req pt radius q]⟩) ∧
    fetchCandidates provider t1 req2 pt2 radius2 q2
        ⟨cache_set st0.cache t0 (mk_cache_key req pt radius q) cands,
         st0.calls ++ [mkPDQuery req pt radius q]⟩ =
      .ok (cands, ⟨cache_set st0.cache t0 (mk_cache_key req pt radius q) cands,
                   st0.calls ++ [mkPDQuery req pt radius q]⟩) ∧
    fetchCandidates provider t2 req2 pt2 radius2 q2
        ⟨cache_set st0.cache t0 (mk_cache_key req pt radius q) cands,
         st0.calls ++ [mkPDQuery req pt radius q]⟩ =
      .ok (cands2,
        ⟨cache_set ((cache_set st0.cache t0 (mk_cache_key req pt radius q) cands).filter
            (fun p => !(p.1 == mk_cache_key req pt radius q))) t2
            (mk_cache_key req pt radius q) cands2,
         (st0.calls ++ [mkPDQuery req pt radius q]) ++ [mkPDQuery req2 pt2 radius2 q2]⟩) := by
  have hget1 : cache_get st0.cache t0 (mk_cache_key req pt radius q) = (none, st0.cache) := by
    unfold cache_get
    rw [hmiss]
  have hlook : (cache_set st0.cache t0 (mk_cache_key req pt radius q) cands).lookup
      (mk_cache_key req pt radius q) = some (t0, cands) := by
    unfold cache_set
    simp [List.lookup]
  refine ⟨?_, ?_, ?_⟩
  · simp only [fetchCandidates, hget1, hp]
  · have hget2 : cache_get
        (cache_set st0.cache t0 (mk_cache_key req pt radius q) cands) t1
        (mk_cache_key req pt radius q) =
        (some cands, cache_set st0.cache t0 (mk_cache_key req pt radius q) cands) := by
      unfold cache_get
      rw [hlook]
      dsimp only
      rw [if_neg (not_lt.mpr hfresh)]
    simp only [fetchCandidates, hkey, hget2]
  · have hget3 : cache_get
        (cache_set st0.cache t0 (mk_cache_key req pt radius q) cands) t2
        (mk_cache_key req pt radius q) =
        (none, (cache_set st0.cache t0 (mk_cache_key req pt radius q) cands).filter
          (fun p => !(p.1 == mk_cache_key req pt radius q))) := by
      unfold cache_get
      rw [hlook]
      dsimp only
      rw [if_pos hstale]
    simp only [fetchCandidates, hkey, hget3, hp2]

theorem search_text_go_transient {α : Type} (att : Nat → HttpAttempt α) (n fuel : Nat)
    (hn : n < 3) (ht : transientAttempt (att n) = true) :
    search_text_go att 3 n (fuel + 1) =
      ((search_text_go att 3 (n + 1) fuel).1,
       (4/10 : ℚ) * (n : ℚ) :: (search_text_go att 3 (n + 1) fuel).2) := by
  cases ha : att n with
  | response s d =>
    have hts : transientStatus s = true := by
      rw [ha] at ht
      exact (by simpa [transientAttempt] using ht :
        transientStatus s = true ∧ 400 ≤ s).1
    simp [search_text_go, ha, hts, hn]
  | exc m =>
    simp [search_text_go, ha, hn]

theorem search_text_go_congr {α : Type} (att att2 : Nat → HttpAttempt α) (m : Nat) :
    ∀ (fuel n : Nat), (∀ k, n ≤ k → k < n + fuel → att2 k = att k) →
    search_text_go att2 m n fuel = search_text_go att m n fuel := by
  intro fuel
  induction fuel with
  | zero => intro n _; rfl
  | succ fuel ih =>
    intro n hag
    have hn : att2 n = att n := hag n (le_refl n) (by omega)
    have hrec := ih (n + 1) (fun k hk1 hk2 => hag k (by omega) (by omega))
    cases ha : att n with
    | response s d =>
      simp only [search_text_go, hn, ha, hrec]
    | exc m2 =>
      simp only [search_text_go, hn, ha, hrec]

/-- Claim C5: a transient failure (rate-limit 429, any 5xx, a timeout / network
exception, or a 400-class response) is retried up to 3 total attempts with
linear backoff `0.4·attempt`; after a transient failure on the final attempt
the last observed error is raised; and two transient failures followed by a
success yield the successful result with no surfaced failure.  The outcome
depends only on the first three attempts. -/
theorem C5_retry_transient {α : Type} (att : Nat → HttpAttempt α)
    (h1 : transientAttempt (att 1) = true) (h2 : transientAttempt (att 2) = true) :
    (∀ s d, att 3 = .response s d → s < 400 →
      search_text att = (.ok d, [2/5, 4/5])) ∧
    (∀ s d, att 3 = .response s d → 400 ≤ s →
      search_text att = (.error (.statusError s), [2/5, 4/5])) ∧
    (∀ m, att 3 = .exc m →
      search_text att = (.error (.excError m), [2/5, 4/5])) ∧
    (∀ att2 : Nat → HttpAttempt α, (∀ k, 1 ≤ k → k ≤ 3 → att2 k = att k) →
      search_text att2 = search_text att) := by
  have hstep : search_text att =
      ((search_text_go att 3 3 1).1,
       (4/10 : ℚ) * (1 : ℚ) :: (4/10 : ℚ) * (2 : ℚ) :: (search_text_go att 3 3 1).2) := by
    unfold search_text
    rw [search_text_go_transient att 1 2 (by omega) h1]
    rw [search_text_go_transient att 2 1 (by omega) h2]
    push_cast
    ring_nf
  have hsleeps1 : (4/10 : ℚ) * (1 : ℚ) = 2/5 := by norm_num
  have hsleeps2 : (4/10 : ℚ) * (2 : ℚ) = 4/5 := by norm_num
  refine ⟨?_, ?_, ?_, ?_⟩
  · intro s d ha hs
    have hlast : search_text_go att 3 3 1 = (.ok d, []) := by
      have h400 : ¬ (400 ≤ s) := by omega
      simp [search_text_go, ha, h400]
    rw [hstep, hlast, hsleeps1, hsleeps2]
  · intro s d ha hs
    have hlast : search_text_go att 3 3 1 = (.error (.statusError s), []) := by
      simp [search_text_go, ha, hs]
    rw [hstep, hlast, hsleeps1, hsleeps2]
  · intro m ha
    have hlast : search_text_go att 3 3 1 = (.error (.excError m), []) := by
      simp [search_text_go, ha]
    rw [hstep, hlast, hsleeps1, hsleeps2]
  · intro att2 hag
    unfold search_text
    exact search_text_go_congr att att2 3 3 1 (fun k hk1 hk2 => hag k hk1 (by omega))

theorem processCandidateNormal_filter (matrix : Matrix)
    (req : DispositionPartnersSearchRequest) (partner_type : String)
    (trust_gates : List String) (rank_weights : RankWeights) (query_str : String)
    (radius : Int) (c : Candidate) (entry : ResultEntry)
    (h : processCandidateNormal matrix req partner_type trust_gates rank_weights
      query_str radius c = some entry) :
    apply_required_gates entry.trust.gates = true := by
  unfold processCandidateNormal at h
  dsimp only at h
  by_cases hfil : apply_required_gates
      (evaluate_trust matrix.trustGateDefinitions c.sources trust_gates).1 = true
  · rw [if_neg (by simp [hfil])] at h
    injection h with h
    rw [← h]
    exact hfil
  · have hfil' : apply_required_gates
        (evaluate_trust matrix.trustGateDefinitions c.sources trust_gates).1 = false := by
      cases hx : apply_required_gates
          (evaluate_trust matrix.trustGateDefinitions c.sources trust_gates).1
      · rfl
      · exact absurd hx hfil
    rw [if_pos (by simp [hfil'])] at h
    cases h

theorem processCandidateLuxury_filter (matrix : Matrix)
    (req : DispositionPartnersSearchRequest) (trust_gates : List String)
    (rank_weights : RankWeights) (query_str : String) (c : Candidate) (entry : ResultEntry)
    (h : processCandidateLuxury matrix req trust_gates rank_weights query_str c =
      some entry) :
    apply_required_gates entry.trust.gates = true := by
  unfold processCandidateLuxury at h
  dsimp only at h
  by_cases hfil : apply_required_gates
      (evaluate_trust matrix.trustGateDefinitions c.sources trust_gates).1 = true
  · rw [if_neg (by simp [hfil])] at h
    injection h with h
    rw [← h]
    exact hfil
  · have hfil' : apply_required_gates
        (evaluate_trust matrix.trustGateDefinitions c.sources trust_gates).1 = false := by
      cases hx : apply_required_gates
          (evaluate_trust matrix.trustGateDefinitions c.sources trust_gates).1
      · rfl
      · exact absurd hx hfil
    rw [if_pos (by simp [hfil'])] at h
    cases h

theorem processCandidates_mem (matrix : Matrix) (req : DispositionPartnersSearchRequest)
    (partner_type : String) (trust_gates : List String) (rank_weights : RankWeights)
    (query_str : String) (radius min_results : Int) :
    ∀ (cands : List Candidate) (found : List ResultEntry) (r : ResultEntry),
    r ∈ processCandidates matrix req partner_type trust_gates rank_weights query_str
      radius min_results found cands →
    r ∈ found ∨ apply_required_gates r.trust.gates = true := by
  intro cands
  induction cands with
  | nil =>
    intro found r hr
    exact Or.inl (by simpa [processCandidates] using hr)
  | cons c rest ih =>
    intro found r hr
    cases hpc : processCandidateNormal matrix req partner_type trust_gates rank_weights
        query_str radius c with
    | none =>
      simp only [processCandidates, hpc] at hr
      exact ih found r hr
    | some entry =>
      simp only [processCandidates, hpc] at hr
      by_cases hmin : min_results ≤ ((found ++ [entry]).length : Int)
      · rw [if_pos hmin] at hr
        rcases List.mem_append.mp hr with h | h
        · exact Or.inl h
        · right
          rw [List.mem_singleton.mp h]
          exact processCandidateNormal_filter _ _ _ _ _ _ _ _ _ hpc
      · rw [if_neg hmin] at hr
        rcases ih (found ++ [entry]) r hr with h | h
        · rcases List.mem_append.mp h with h2 | h2
          · exact Or.inl h2
          · right
            rw [List.mem_singleton.mp h2]
            exact processCandidateNormal_filter _ _ _ _ _ _ _ _ _ hpc
        · exact Or.inr h

theorem processQueries_mem (matrix : Matrix) (provider : Provider) (now : ℚ)
    (req : DispositionPartnersSearchRequest) (partner_type : String)
    (trust_gates : List String) (rank_weights : RankWeights) (radius min_results : Int) :
    ∀ (queries : List (Option String)) (st : SearchState) (found found' : List ResultEntry)
      (st' : SearchState),
    processQueries matrix provider now req partner_type trust_gates rank_weights radius
      min_results st found queries = .ok (found', st') →
    ∀ r ∈ found', r ∈ found ∨ apply_required_gates r.trust.gates = true := by
  intro queries
  induction queries with
  | nil =>
    intro st found found' st' h r hr
    simp only [processQueries] at h
    injection h with h
    injection h with h1 _
    rw [← h1] at hr
    exact Or.inl hr
  | cons q rest ih =>
    intro st found found' st' h r hr
    cases q with
    | none =>
      simp only [processQueries] at h
      exact ih st found found' st' h r hr
    | some q_template =>
      by_cases hq : (q_template == "") = true
      · simp only [processQueries, hq] at h
        rw [if_pos trivial] at h
        exact ih st found found' st' h r hr
      · simp only [processQueries] at h
        rw [if_neg (by simp_all)] at h
        cases hfc : fetchCandidates provider now req partner_type radius
            (buildQueryStr req q_template) st with
        | error e =>
          rw [hfc] at h
          cases h
        | ok cs =>
          rw [hfc] at h
          dsimp only at h
          by_cases hmin : min_results ≤
              ((processCandidates matrix req partner_type trust_gates rank_weights
                (buildQueryStr req q_template) radius min_results found cs.1).length : Int)
          · rw [if_pos hmin] at h
            injection h with h
            injection h with h1 _
            rw [← h1] at hr
            exact processCandidates_mem _ _ _ _ _ _ _ _ _ _ _ hr
          · rw [if_neg hmin] at h
            rcases ih _ _ _ _ h r hr with h2 | h2
            · exact processCandidates_mem _ _ _ _ _ _ _ _ _ _ _ h2
            · exact Or.inr h2

theorem processRadii_mem (matrix : Matrix) (provider : Provider) (now : ℚ)
    (req : DispositionPartnersSearchRequest) (partner_type : String)
    (trust_gates : List String) (rank_weights : RankWeights)
    (queries : List (Option String)) (min_results : Int) :
    ∀ (radii : List Int) (st : SearchState) (found found' : List ResultEntry)
      (st' : SearchState),
    processRadii matrix provider now req partner_type trust_gates rank_weights queries
      min_results st found radii = .ok (found', st') →
    ∀ r ∈ found', r ∈ found ∨ apply_required_gates r.trust.gates = true := by
  intro radii
  induction radii with
  | nil =>
    intro st found found' st' h r hr
    simp only [processRadii] at h
    injection h with h
    injection h with h1 _
    rw [← h1] at hr
    exact Or.inl hr
  | cons radius rest ih =>
    intro st found found' st' h r hr
    simp only [processRadii] at h
    cases hpq : processQueries matrix provider now req partner_type trust_gates
        rank_weights radius min_results st found queries with
    | error e =>
      rw [hpq] at h
      cases h
    | ok fs =>
      rw [hpq] at h
      dsimp only at h
      by_cases hmin : min_results ≤ ((fs.1).length : Int)
      · rw [if_pos hmin] at h
        injection h with h
        have h1 : fs.1 = found' := by rw [h]
        rw [← h1] at hr
        exact processQueries_mem _ _ _ _ _ _ _ _ _ _ _ _ _ _ (by rw [hpq]) r hr
      · rw [if_neg hmin] at h
        rcases ih _ _ _ _ h r hr with h2 | h2
        · exact processQueries_mem _ _ _ _ _ _ _ _ _ _ _ _ _ _ (by rw [hpq]) r h2
        · exact Or.inr h2

theorem dedup_subset : ∀ (seen : List String) (l : List ResultEntry) (r : ResultEntry),
    r ∈ dedupByFingerprint seen l → r ∈ l := by
  intro seen l
  induction l generalizing seen with
  | nil => intro r hr; simpa [dedupByFingerprint] using hr
  | cons a l ih =>
    intro r hr
    simp only [dedupByFingerprint] at hr
    by_cases hs : fingerprint a ∈ seen
    · rw [if_pos (by simpa using hs)] at hr
      exact List.mem_cons_of_mem _ (ih seen r hr)
    · rw [if_neg (by simpa using hs)] at hr
      rcases List.mem_cons.mp hr with rfl | hmem
      · exact List.mem_cons_self _ _
      · exact List.mem_cons_of_mem _ (ih _ r hmem)

theorem dedupSorted_subset (rs : List ResultEntry) (r : ResultEntry)
    (hr : r ∈ dedupSorted rs) : r ∈ rs := by
  unfold dedupSorted at hr
  have h1 := dedup_subset [] _ r hr
  exact (List.perm_insertionSort byScoreDesc rs).mem_iff.mp h1

theorem processPartnerType_mem (matrix : Matrix) (provider : Provider) (now : ℚ)
    (req : DispositionPartnersSearchRequest) (min_results max_radius base_radius : Int)
    (st : SearchState) (pt : PartnerTypeSpec) (ds : List ResultEntry) (st' : SearchState)
    (h : processPartnerType matrix provider now req min_results max_radius base_radius st
      pt = .ok (ds, st')) :
    ∀ r ∈ ds, apply_required_gates r.trust.gates = true := by
  intro r hr
  unfold processPartnerType at h
  by_cases hlux : (pt.type == "luxury_hub_mailin") = true
  · rw [if_pos hlux] at h
    dsimp only at h
    injection h with h
    injection h with h1 _
    rw [← h1] at hr
    have hm := List.take_subset _ _ hr
    rcases List.mem_filterMap.mp hm with ⟨c, _, hc⟩
    exact processCandidateLuxury_filter _ _ _ _ _ _ _ hc
  · rw [if_neg hlux] at h
    cases hpr : processRadii matrix provider now req pt.type pt.trustGates pt.rankWeights
        pt.queries min_results st [] (buildRadii base_radius max_radius) with
    | error e =>
      rw [hpr] at h
      cases h
    | ok fs =>
      rw [hpr] at h
      dsimp only at h
      injection h with h
      injection h with h1 _
      rw [← h1] at hr
      have hm := dedupSorted_subset _ _ (List.take_subset _ _ hr)
      rcases processRadii_mem _ _ _ _ _ _ _ _ _ _ _ _ _ _ hpr r hm with h2 | h2
      · cases h2
      · exact h2

theorem processTypes_mem (matrix : Matrix) (provider : Provider) (now : ℚ)
    (req : DispositionPartnersSearchRequest) (min_results max_radius base_radius : Int) :
    ∀ (pts : List PartnerTypeSpec) (st : SearchState) (acc all : List ResultEntry)
      (st' : SearchState),
    processTypes matrix provider now req min_results max_radius base_radius st acc pts =
      .ok (all, st') →
    ∀ r ∈ all, r ∈ acc ∨ apply_required_gates r.trust.gates = true := by
  intro pts
  induction pts with
  | nil =>
    intro st acc all st' h r hr
    simp only [processTypes] at h
    injection h with h
    injection h with h1 _
    rw [← h1] at hr
    exact Or.inl hr
  | cons pt rest ih =>
    intro st acc all st' h r hr
    simp only [processTypes] at h
    by_cases hb : (pt.type == "") = true
    · rw [if_pos hb] at h
      exact ih st acc all st' h r hr
    · rw [if_neg hb] at h
      cases hpp : processPartnerType matrix provider now req min_results max_radius
          base_radius st pt with
      | error e =>
        rw [hpp] at h
        cases h
      | ok ds =>
        rw [hpp] at h
        dsimp only at h
        rcases ih _ _ _ _ h r hr with h2 | h2
        · rcases List.mem_append.mp h2 with h3 | h3
          · exact Or.inl h3
          · exact Or.inr (processPartnerType_mem _ _ _ _ _ _ _ _ _ _ _
              (by rw [hpp]) r h3)
        · exact Or.inr h2

/-- Claim C1: in every successful search response, no result carries a
required-mode gate with status `"fail"` (such candidates are dropped before
scoring); and the gate filter never excludes a candidate whose required gates
all have status `"pass"` or `"unknown"`. -/
theorem C1_required_gate_filter (matrix : Matrix) (provider : Provider) (now : ℚ)
    (payload : DispositionPartnersSearchRequest) (st0 : SearchState)
    (resp : DispositionPartnersSearchResponse) (st' : SearchState)
    (hok : disposition_partners_search matrix provider now payload st0 = .ok (resp, st')) :
    (∀ r ∈ resp.results, ∀ g ∈ r.trust.gates, g.mode = "required" → g.status ≠ "fail") ∧
    (∀ gates : List GateResult,
      (∀ g ∈ gates, g.mode = "required" → g.status = "pass" ∨ g.status = "unknown") →
      apply_required_gates gates = true) := by
  constructor
  · intro r hr g hg hm
    unfold disposition_partners_search at hok
    dsimp only at hok
    cases hpt : processTypes matrix provider now (normalize_brand_hints payload)
        (matrix.minResults.getD 6) (matrix.maxRadiusMiles.getD 100)
        (searchBaseRadius matrix payload) st0 []
        (pick_scenario matrix payload).partnerTypes with
    | error e =>
      rw [hpt] at hok
      cases hok
    | ok rs =>
      rw [hpt] at hok
      dsimp only at hok
      injection hok with hok
      injection hok with h1 _
      rw [← h1] at hr
      have hmem : r ∈ rs.1 :=
        (List.perm_insertionSort byScoreDesc rs.1).mem_iff.mp (List.take_subset _ _ hr)
      rcases processTypes_mem _ _ _ _ _ _ _ _ _ _ _ _ (by rw [hpt]) r hmem with h2 | h2
      · cases h2
      · exact (apply_required_gates_eq_true_iff _).mp h2 g hg hm
  · intro gates hg
    rw [apply_required_gates_eq_true_iff]
    intro g hgm hm hfail
    rcases hg g hgm hm with h | h <;> rw [h] at hfail <;> simp at hfail

theorem processTypes_append (matrix : Matrix) (provider : Provider) (now : ℚ)
    (req : DispositionPartnersSearchRequest) (min_results max_radius base_radius : Int) :
    ∀ (xs ys : List PartnerTypeSpec) (st : SearchState) (acc : List ResultEntry),
    processTypes matrix provider now req min_results max_radius base_radius st acc
      (xs ++ ys) =
      match processTypes matrix provider now req min_results max_radius base_radius st
          acc xs with
      | .error e => .error e
      | .ok p => processTypes matrix provider now req min_results max_radius base_radius
          p.2 p.1 ys := by
  intro xs
  induction xs with
  | nil => intro ys st acc; rfl
  | cons pt xs ih =>
    intro ys st acc
    rw [List.cons_append]
    simp only [processTypes]
    by_cases hb : (pt.type == "") = true
    · rw [if_pos hb, if_pos hb]
      exact ih ys st acc
    · rw [if_neg hb, if_neg hb]
      cases hpp : processPartnerType matrix provider now req min_results max_radius
          base_radius st pt with
      | error e => rfl
      | ok ds =>
        dsimp only
        exact ih ys ds.2 (acc ++ ds.1)

/-- Claim C6 counterexample: with a scenario declaring consignment then
donation, a provider that fails for consignment and succeeds for donation makes
the whole search fail; the donation partner type is never searched and
contributes nothing, although its provider call would succeed. -/
theorem C6_counterexample :
    disposition_partners_search matrix6 provider6 0 req6 st00 = .error "boom" ∧
    provider6 (mkPDQuery req6 "donation" 25 "b") = .ok [cand6] := by
  constructor
  · rfl
  · rfl

/-- Claim C6 (amended): there is no failure isolation at partner-type
granularity.  When the provider call path of one partner type errors out after
its retry budget, the exception propagates: the whole search call returns that
error, and the partner types after the failing one are never searched (the
outcome does not depend on them). -/
theorem C6_failure_propagation_amended (matrix : Matrix) (provider : Provider) (now : ℚ)
    (payload : DispositionPartnersSearchRequest) (st0 : SearchState)
    (pre rest : List PartnerTypeSpec) (pt : PartnerTypeSpec)
    (acc : List ResultEntry) (st1 : SearchState) (e : String)
    (hsplit : (pick_scenario matrix payload).partnerTypes = pre ++ pt :: rest)
    (hpre : processTypes matrix provider now (normalize_brand_hints payload)
      (matrix.minResults.getD 6) (matrix.maxRadiusMiles.getD 100)
      (searchBaseRadius matrix payload) st0 [] pre = .ok (acc, st1))
    (hpt : ¬ (pt.type = ""))
    (herr : processPartnerType matrix provider now (normalize_brand_hints payload)
      (matrix.minResults.getD 6) (matrix.maxRadiusMiles.getD 100)
      (searchBaseRadius matrix payload) st1 pt = .error e) :
    disposition_partners_search matrix provider now payload st0 = .error e ∧
    ∀ rest2 : List PartnerTypeSpec,
      processTypes matrix provider now (normalize_brand_hints payload)
        (matrix.minResults.getD 6) (matrix.maxRadiusMiles.getD 100)
        (searchBaseRadius matrix payload) st0 [] (pre ++ pt :: rest2) = .error e := by
  have hall : ∀ rest2 : List PartnerTypeSpec,
      processTypes matrix provider now (normalize_brand_hints payload)
        (matrix.minResults.getD 6) (matrix.maxRadiusMiles.getD 100)
        (searchBaseRadius matrix payload) st0 [] (pre ++ pt :: rest2) = .error e := by
    intro rest2
    rw [processTypes_append]
    rw [hpre]
    simp only [processTypes]
    rw [if_neg (by simp [hpt])]
    rw [herr]
  refine ⟨?_, hall⟩
  unfold disposition_partners_search
  dsimp only
  rw [hsplit, hall rest]

theorem dedup_not_mem_seen : ∀ (l : List ResultEntry) (seen : List String) (r : ResultEntry),
    r ∈ dedupByFingerprint seen l → fingerprint r ∉ seen := by
  intro l
  induction l with
  | nil => intro seen r hr; simp [dedupByFingerprint] at hr
  | cons a l ih =>
    intro seen r hr
    simp only [dedupByFingerprint] at hr
    by_cases hs : fingerprint a ∈ seen
    · rw [if_pos (by simpa using hs)] at hr
      exact ih seen r hr
    · rw [if_neg (by simpa using hs)] at hr
      rcases List.mem_cons.mp hr with rfl | hmem
      · exact hs
      · intro hc
        exact ih _ r hmem (List.mem_cons_of_mem _ hc)

theorem dedup_countP_zero : ∀ (l : List ResultEntry) (seen : List String) (fp : String),
    fp ∈ seen →
    (dedupByFingerprint seen l).countP (fun r => fingerprint r == fp) = 0 := by
  intro l
  induction l with
  | nil => intro seen fp _; rfl
  | cons a l ih =>
    intro seen fp hfp
    simp only [dedupByFingerprint]
    by_cases hs : fingerprint a ∈ seen
    · rw [if_pos (by simpa using hs)]
      exact ih seen fp hfp
    · rw [if_neg (by simpa using hs)]
      rw [List.countP_cons]
      have hne : (fingerprint a == fp) = false := by
        have : fingerprint a ≠ fp := fun hc => hs (hc ▸ hfp)
        simpa using this
      rw [hne]
      rw [if_neg Bool.false_ne_true]
      rw [ih (fingerprint a :: seen) fp (List.mem_cons_of_mem _ hfp)]

theorem dedup_countP_one : ∀ (l : List ResultEntry) (seen : List String) (fp : String),
    fp ∉ seen → fp ∈ l.map fingerprint →
    (dedupByFingerprint seen l).countP (fun r => fingerprint r == fp) = 1 := by
  intro l
  induction l with
  | nil => intro seen fp _ hin; simp at hin
  | cons a l ih =>
    intro seen fp hnot hin
    simp only [dedupByFingerprint]
    by_cases hs : fingerprint a ∈ seen
    · rw [if_pos (by simpa using hs)]
      have hfa : fingerprint a ≠ fp := fun hc => hnot (hc ▸ hs)
      have hin' : fp ∈ l.map fingerprint := by
        rcases List.mem_map.mp hin with ⟨x, hx, hfx⟩
        rcases List.mem_cons.mp hx with rfl | hmem
        · exact absurd hfx hfa
        · exact List.mem_map.mpr ⟨x, hmem, hfx⟩
      exact ih seen fp hnot hin'
    · rw [if_neg (by simpa using hs)]
      rw [List.countP_cons]
      by_cases heq : fingerprint a = fp
      · rw [show (fingerprint a == fp) = true from by simpa using heq]
        rw [if_pos rfl]
        rw [dedup_countP_zero l (fingerprint a :: seen) fp
          (heq ▸ List.mem_cons_self _ _)]
      · rw [show (fingerprint a == fp) = false from by simpa using heq]
        rw [if_neg Bool.false_ne_true]
        have hin' : fp ∈ l.map fingerprint := by
          rcases List.mem_map.mp hin with ⟨x, hx, hfx⟩
          rcases List.mem_cons.mp hx with rfl | hmem
          · exact absurd hfx heq
          · exact List.mem_map.mpr ⟨x, hmem, hfx⟩
        have hnot' : fp ∉ fingerprint a :: seen := by
          intro hc
          rcases List.mem_cons.mp hc with hc | hc
          · exact heq hc.symm
          · exact hnot hc
        rw [ih (fingerprint a :: seen) fp hnot' hin']

theorem dedup_retained_max : ∀ (l : List ResultEntry), l.Sorted byScoreDesc →
    ∀ (seen : List String) (r : ResultEntry), r ∈ dedupByFingerprint seen l →
    ∀ x ∈ l, fingerprint x = fingerprint r → x.ranking.score ≤ r.ranking.score := by
  intro l
  induction l with
  | nil => intro _ seen r hr; simp [dedupByFingerprint] at hr
  | cons a l ih =>
    intro hs seen r hr x hx hfx
    rw [List.sorted_cons] at hs
    simp only [dedupByFingerprint] at hr
    by_cases hmem : fingerprint a ∈ seen
    · rw [if_pos (by simpa using hmem)] at hr
      rcases List.mem_cons.mp hx with rfl | hx2
      · exact absurd (hfx ▸ hmem) (dedup_not_mem_seen l seen r hr)
      · exact ih hs.2 seen r hr x hx2 hfx
    · rw [if_neg (by simpa using hmem)] at hr
      rcases List.mem_cons.mp hr with rfl | hr2
      · rcases List.mem_cons.mp hx with rfl | hx2
        · exact le_refl _
        · exact hs.1 x hx2
      · rcases List.mem_cons.mp hx with rfl | hx2
        · exact absurd (hfx ▸ List.mem_cons_self _ _)
            (dedup_not_mem_seen l (fingerprint x :: seen) r hr2)
        · exact ih hs.2 _ r hr2 x hx2 hfx

/-- Claim C9: entries sharing a normalised identity fingerprint collapse into
exactly one deduplicated entry, the retained entry carries the maximal
composite score among the duplicates, and the retained score is the same for
every permutation of the input. -/
theorem C9_dedup_collapse (rs rs' : List ResultEntry) (hperm : rs.Perm rs') (fp : String)
    (hfp : fp ∈ rs.map fingerprint) :
    (dedupSorted rs).countP (fun r => fingerprint r == fp) = 1 ∧
    (∀ r ∈ dedupSorted rs, fingerprint r = fp →
      ∀ x ∈ rs, fingerprint x = fp → x.ranking.score ≤ r.ranking.score) ∧
    (∀ r ∈ dedupSorted rs, ∀ r2 ∈ dedupSorted rs', fingerprint r = fp →
      fingerprint r2 = fp → r.ranking.score = r2.ranking.score) := by
  have hsorted := List.sorted_insertionSort byScoreDesc rs
  have hsorted' := List.sorted_insertionSort byScoreDesc rs'
  have hpermS := List.perm_insertionSort byScoreDesc rs
  have hpermS' := List.perm_insertionSort byScoreDesc rs'
  have hmax : ∀ r ∈ dedupSorted rs, ∀ x ∈ rs,
      fingerprint x = fingerprint r → x.ranking.score ≤ r.ranking.score := by
    intro r hr x hx hfpx
    exact dedup_retained_max _ hsorted [] r hr x (hpermS.mem_iff.mpr hx) hfpx
  have hmax' : ∀ r ∈ dedupSorted rs', ∀ x ∈ rs',
      fingerprint x = fingerprint r → x.ranking.score ≤ r.ranking.score := by
    intro r hr x hx hfpx
    exact dedup_retained_max _ hsorted' [] r hr x (hpermS'.mem_iff.mpr hx) hfpx
  refine ⟨?_, ?_, ?_⟩
  · unfold dedupSorted
    apply dedup_countP_one _ _ _ (by simp)
    rcases List.mem_map.mp hfp with ⟨x, hx, hfx⟩
    exact List.mem_map.mpr ⟨x, hpermS.mem_iff.mpr hx, hfx⟩
  · intro r hr hfr x hx hfx
    exact hmax r hr x hx (by rw [hfx, hfr])
  · intro r hr r2 hr2 hfr hfr2
    have hr_mem : r ∈ rs := dedupSorted_subset _ _ hr
    have hr2_mem : r2 ∈ rs' := dedupSorted_subset _ _ hr2
    have h1 : r.ranking.score ≤ r2.ranking.score :=
      hmax' r2 hr2 r (hperm.mem_iff.mp hr_mem) (by rw [hfr, hfr2])
    have h2 : r2.ranking.score ≤ r.ranking.score :=
      hmax r hr r2 (hperm.mem_iff.mpr hr2_mem) (by rw [hfr2, hfr])
    exact le_antisymm h1 h2

/-! ## Witnesses -/

theorem C1_required_gate_filter_witness :
    runC1 = .ok (respC1, stC1) ∧ respC1.results.length = 1 ∧
    respC1.results.all (fun r => apply_required_gates r.trust.gates) = true := by
  have h := C1_required_gate_filter matrix1 provider1 0 req6 st00 respC1 stC1 rfl
  refine ⟨rfl, by decide, ?_⟩
  rw [List.all_eq_true]
  intro r hr
  exact (apply_required_gates_eq_true_iff _).mpr (h.1 r hr)

theorem C3_pick_scenario_total_witness :
    scenario_matches (pick_scenario matrix3 req3).when req3 = true ∧
    pick_scenario matrix3 req3 = scn3hi ∧
    scn3lo.priority ≤ (pick_scenario matrix3 req3).priority := by
  have h := C3_pick_scenario_total matrix3 req3
  have hm := h.2.2.1 ⟨scn3hi, by decide, by decide⟩
  exact ⟨hm.1, by decide, hm.2 scn3lo (by decide) (by decide)⟩

theorem C4_cache_ttl_witness :
    fetchCandidates provider4 0 req6 "donation" 25 "b" st00 =
      .ok ([cand6], ⟨cache_set st00.cache 0 (mk_cache_key req6 "donation" 25 "b") [cand6],
                     st00.calls ++ [mkPDQuery req6 "donation" 25 "b"]⟩) ∧
    fetchCandidates provider4 1 req6 "donation" 25 "b"
        ⟨cache_set st00.cache 0 (mk_cache_key req6 "donation" 25 "b") [cand6],
         st00.calls ++ [mkPDQuery req6 "donation" 25 "b"]⟩ =
      .ok ([cand6], ⟨cache_set st00.cache 0 (mk_cache_key req6 "donation" 25 "b") [cand6],
                     st00.calls ++ [mkPDQuery req6 "donation" 25 "b"]⟩) ∧
    fetchCandidates provider4 100000 req6 "donation" 25 "b"
        ⟨cache_set st00.cache 0 (mk_cache_key req6 "donation" 25 "b") [cand6],
         st00.calls ++ [mkPDQuery req6 "donation" 25 "b"]⟩ =
      .ok ([cand6],
        ⟨cache_set ((cache_set st00.cache 0 (mk_cache_key req6 "donation" 25 "b")
            [cand6]).filter (fun p => !(p.1 == mk_cache_key req6 "donation" 25 "b"))) 100000
            (mk_cache_key req6 "donation" 25 "b") [cand6],
         (st00.calls ++ [mkPDQuery req6 "donation" 25 "b"]) ++
           [mkPDQuery req6 "donation" 25 "b"]⟩) := by
  exact C4_cache_ttl provider4 req6 req6 "donation" "donation" 25 25 "b" "b" st00 0 1
    100000 [cand6] [cand6] rfl rfl rfl (by norm_num [cacheTTL]) (by norm_num [cacheTTL]) rfl

theorem C5_retry_transient_witness : search_text att5 = (.ok (), [2/5, 4/5]) := by
  have h := C5_retry_transient att5 (by decide) (by decide)
  exact h.1 200 () rfl (by norm_num)

theorem C6_failure_propagation_amended_witness :
    disposition_partners_search matrix6 provider6 0 req6 st00 = .error "boom" ∧
    processTypes matrix6 provider6 0 (normalize_brand_hints req6)
      (matrix6.minResults.getD 6) (matrix6.maxRadiusMiles.getD 100)
      (searchBaseRadius matrix6 req6) st00 [] ([] ++ pt6a :: []) = .error "boom" := by
  have h := C6_failure_propagation_amended matrix6 provider6 0 req6 st00 [] [pt6b] pt6a
    [] st00 "boom" rfl rfl (by decide) rfl
  exact ⟨h.1, h.2 []⟩

theorem C9_dedup_collapse_witness :
    (dedupSorted [e9b, e9a]).countP (fun r => fingerprint r == fingerprint e9a) = 1 ∧
    dedupSorted [e9b, e9a] = [e9a] ∧ dedupSorted [e9a, e9b] = [e9a] ∧
    e9b.ranking.score ≤ e9a.ranking.score := by
  have h := C9_dedup_collapse [e9b, e9a] [e9a, e9b] (by decide) (fingerprint e9a)
    (by decide)
  refine ⟨h.1, by decide, by decide, ?_⟩
  exact h.2.1 e9a (by decide) rfl e9b (by decide) (by decide)

theorem C10_unknown_gate_witness :
    (⟨"gu1", "required", "unknown", none, 0⟩ : GateResult) ∈
      (evaluate_trust defs2 srcs2 refs2).1 ∧
    0 < specRequiredTotal refs2 ∧
    specRequiredPass defs2 srcs2 refs2 < specRequiredTotal refs2 ∧
    (evaluate_trust defs2 srcs2 refs2).2.1 = 123/1000 := by
  have h := C10_unknown_gate defs2 srcs2 refs2 "required:gu1" "gu1" (by decide)
    (by decide) rfl
  exact ⟨h.1, h.2.1, h.2.2.1, by decide⟩

end LTC
